import Mathlib

/-!
Verification development for the `android_bootimg` repository.

Byte arrays are modelled as `List Nat` (each element a byte value).
Pure functions of the Rust source are translated to Lean functions;
fallible code returns an error-carrying result type, and Rust panics
(out-of-range slicing) are modelled by a distinguished `panicked`
result.  Machine integers are modelled by `Nat` with explicit `% 256`
(or `% 2 ^ 32` / `% 2 ^ 64`) where wrap-around matters.
-/

set_option maxRecDepth 1000000
set_option maxHeartbeats 2000000

namespace Bootimg

/-- Result type for fallible operations: `ok`, a recoverable error
(Rust `anyhow::bail!`), or a Rust panic (e.g. out-of-range slice). -/
inductive PResult (ε α : Type) where
  | ok (a : α)
  | err (e : ε)
  | panicked
deriving DecidableEq, Repr

/-- Models `utils::align_to(num, alignment)`.  The source computes
`(num + alignment - 1) & !(alignment - 1)` and asserts that `alignment`
is a power of two; for powers of two that bitwise form equals the
division form used here.  (For `alignment = 0` the source panics on the
assertion; here division by zero yields `0`, so theorems about
alignment carry a power-of-two hypothesis.) -/
def align_to (num alignment : Nat) : Nat :=
  (num + alignment - 1) / alignment * alignment

/-- Whether `alignment` is a nonzero power of two (the source's
`assert!(alignment & (alignment - 1) == 0)` together with nonzeroness,
which every real page size satisfies). -/
def is_pow2 (n : Nat) : Bool :=
  n != 0 && (n &&& (n - 1)) == 0

/-- Length of a byte buffer (Rust `len()`, which is O(1) on slices).
Defined with a forced accumulator so that evaluating it on a long
concrete list needs only constant stack. -/
def listLen : List Nat → Nat → Nat
  | [], acc => acc
  | _ :: rest, 0 => listLen rest 1
  | _ :: rest, acc + 1 => listLen rest (acc + 2)

theorem listLen_eq (l : List Nat) : ∀ acc, listLen l acc = l.length + acc := by
  induction l with
  | nil => intro acc; simp [listLen]
  | cons a rest ih =>
    intro acc
    match acc with
    | 0 => simp [listLen, ih]
    | acc + 1 => simp [listLen, ih]; omega

theorem listLen_eq0 (l : List Nat) : listLen l 0 = l.length := by
  simp [listLen_eq]

/-- Little-endian u32 read at `off`, `None` when fewer than 4 bytes are
available: `utils::SliceExt::u32_at` (`self.get(offset..offset+4)`). -/
def u32_at (data : List Nat) (off : Nat) : Option Nat :=
  match data.drop off with
  | b0 :: b1 :: b2 :: b3 :: _ => some (b0 + 256 * b1 + 65536 * b2 + 16777216 * b3)
  | _ => none

/-- Infallible little-endian u32 read (Rust
`u32::from_le_bytes(data[off..off+4])`; the source panics when out of
range, which never happens for the in-bounds header reads modelled
here — out-of-range positions read as 0). -/
def readU32le (data : List Nat) (off : Nat) : Nat :=
  data.getD off 0 + 256 * data.getD (off + 1) 0 + 65536 * data.getD (off + 2) 0
    + 16777216 * data.getD (off + 3) 0

/-- Infallible big-endian u64 read (`u64::from_be_bytes`). -/
def readU64be (data : List Nat) (off : Nat) : Nat :=
  data.getD (off + 7) 0 + 256 * data.getD (off + 6) 0
    + 256 ^ 2 * data.getD (off + 5) 0 + 256 ^ 3 * data.getD (off + 4) 0
    + 256 ^ 4 * data.getD (off + 3) 0 + 256 ^ 5 * data.getD (off + 2) 0
    + 256 ^ 6 * data.getD (off + 1) 0 + 256 ^ 7 * data.getD off 0

/-- Models `u64::to_be_bytes` (8 bytes, big-endian; values ≥ 2^64 are
truncated exactly as the u64 cast would). -/
def be64 (n : Nat) : List Nat :=
  [n / 256 ^ 7 % 256, n / 256 ^ 6 % 256, n / 256 ^ 5 % 256, n / 256 ^ 4 % 256,
   n / 256 ^ 3 % 256, n / 256 ^ 2 % 256, n / 256 % 256, n % 256]

/-- Models `u32::to_le_bytes` (4 bytes, little-endian). -/
def le32 (n : Nat) : List Nat :=
  [n % 256, n / 256 % 256, n / 256 ^ 2 % 256, n / 256 ^ 3 % 256]

/-- Models `copy_from_slice` into `l[off .. off + repl.length]` (in-bounds in
every use below). -/
def setBytes (l : List Nat) (off : Nat) (repl : List Nat) : List Nat :=
  l.take off ++ repl ++ l.drop (off + repl.length)

/-- Slice `data[off .. off + len]` as an `Option`
(Rust `data.get(off..off+len)`): `some` iff `off + len ≤ data.length`. -/
def sliceAt (data : List Nat) (off len : Nat) : Option (List Nat) :=
  if off + len ≤ listLen data 0 then some ((data.drop off).take len) else none

/-- A run of zero bytes (`WriteExt::write_zeros`). -/
def zeros (n : Nat) : List Nat :=
  List.replicate n 0

/-! ## Compression format detection (`compress.rs`) -/

inductive CompressFormat where
  | UNKNOWN
  | GZIP
  | ZOPFLI
  | LZOP
  | XZ
  | LZMA
  | BZIP2
  | LZ4
  | LZ4_LEGACY
deriving DecidableEq, Repr

def GZIP1_MAGIC : List Nat := [0x1f, 0x8b]
def GZIP2_MAGIC : List Nat := [0x1f, 0x9e]
def LZOP_MAGIC : List Nat := [0x89, 0x4c, 0x5a, 0x4f]
def XZ_MAGIC : List Nat := [0xfd, 0x37, 0x7a, 0x58, 0x5a]
def BZIP_MAGIC : List Nat := [0x42, 0x5a, 0x68]
def LZ4_LEG_MAGIC : List Nat := [0x02, 0x21, 0x4c, 0x18]
def LZ41_MAGIC : List Nat := [0x03, 0x21, 0x4c, 0x18]
def LZ42_MAGIC : List Nat := [0x04, 0x22, 0x4d, 0x18]

/-- Models `compress::guess_lzma`. -/
def guess_lzma (data : List Nat) : Bool :=
  if listLen data 0 ≤ 13 then false
  else if data.getD 0 0 != 0x5d then false
  else
    let dict_size := readU32le data 1
    if dict_size == 0 || (dict_size &&& (dict_size - 1)) != 0 then false
    else (data.drop 5).take 8 == List.replicate 8 0xff

/-- Models `compress::parse_compress_format`. -/
def parse_compress_format (data : List Nat) : CompressFormat :=
  if GZIP1_MAGIC.isPrefixOf data || GZIP2_MAGIC.isPrefixOf data then .GZIP
  else if LZOP_MAGIC.isPrefixOf data then .LZOP
  else if XZ_MAGIC.isPrefixOf data then .XZ
  else if BZIP_MAGIC.isPrefixOf data then .BZIP2
  else if LZ41_MAGIC.isPrefixOf data || LZ42_MAGIC.isPrefixOf data then .LZ4
  else if LZ4_LEG_MAGIC.isPrefixOf data then .LZ4_LEGACY
  else if guess_lzma data then .LZMA
  else .UNKNOWN

/-! ## Constants (`constants.rs`)

Modelled from the spec: `constants.rs` is not under `src/`; the string
field sizes and the AVB magics are taken from §3 of the specification
(BOOT_NAME=16, BOOT_ARGS=512, BOOT_ID=32, BOOT_EXTRA_ARGS=1024,
VENDOR_BOOT_ARGS=2048, VENDOR_RAMDISK_NAME=32, VENDOR_RAMDISK_BOARD_ID
= 16 u32s, footer magic "AVBf", vbmeta magic "AVB0"). -/

def BOOT_NAME_SIZE : Nat := 16
def BOOT_ARGS_SIZE : Nat := 512
def BOOT_ID_SIZE : Nat := 32
def BOOT_EXTRA_ARGS_SIZE : Nat := 1024
def VENDOR_BOOT_ARGS_SIZE : Nat := 2048
def VENDOR_RAMDISK_NAME_SIZE : Nat := 32
def VENDOR_RAMDISK_TABLE_ENTRY_BOARD_ID_SIZE : Nat := 16

/-- The string "AVBf" -/
def AVB_FOOTER_MAGIC : List Nat := [65, 86, 66, 102]
/-- The string "AVB0" -/
def AVB_MAGIC : List Nat := [65, 86, 66, 48]

/-! ## Layout catalog (`layouts.rs`)

The generated `BootHeaderLayout` structure: one `offset_*` per
integer field, `(offset_*, size_*)` per string field, `total_size`.
Offset 0 is the "field not present" sentinel (`DEFAULT_LAYOUT`); the
offsets below are the values the layout-generating code of `layouts.rs`
accumulates (initial offset 8 after the magic, or the parent layout's
`total_size` for inherited layouts). -/

structure BootHeaderLayout where
  name : String
  offset_kernel_size : Nat := 0
  offset_ramdisk_size : Nat := 0
  offset_second_size : Nat := 0
  offset_page_size : Nat := 0
  offset_header_version : Nat := 0
  offset_os_version : Nat := 0
  offset_recovery_dtbo_size : Nat := 0
  offset_recovery_dtbo_offset : Nat := 0
  offset_header_size : Nat := 0
  offset_dtb_size : Nat := 0
  offset_signature_size : Nat := 0
  offset_vendor_ramdisk_table_size : Nat := 0
  offset_vendor_ramdisk_table_entry_num : Nat := 0
  offset_vendor_ramdisk_table_entry_size : Nat := 0
  offset_bootconfig_size : Nat := 0
  offset_name : Nat := 0
  size_name : Nat := 0
  offset_cmdline : Nat := 0
  size_cmdline : Nat := 0
  offset_id : Nat := 0
  size_id : Nat := 0
  offset_extra_cmdline : Nat := 0
  size_extra_cmdline : Nat := 0
  total_size : Nat := 0
deriving DecidableEq, Repr

/-- Offsets accumulated from 8: kernel_size 8, kernel_addr 12,
ramdisk_size 16, ramdisk_addr 20, second_size 24, second_addr 28,
tags_addr 32, page_size 36, header_version 40, os_version 44,
name 48+16, cmdline 64+512, id 576+32, extra_cmdline 608+1024 → 1632.
Exposed ifields: kernel_size, ramdisk_size, second_size, page_size,
header_version, os_version; sfields: name, cmdline, id. -/
def BOOT_HEADER_V0 : BootHeaderLayout where
  name := "BOOT_HEADER_V0"
  offset_kernel_size := 8
  offset_ramdisk_size := 16
  offset_second_size := 24
  offset_page_size := 36
  offset_header_version := 40
  offset_os_version := 44
  offset_name := 48
  size_name := BOOT_NAME_SIZE
  offset_cmdline := 64
  size_cmdline := BOOT_ARGS_SIZE
  offset_id := 576
  size_id := BOOT_ID_SIZE
  total_size := 1632

/-- Inherits V0; recovery_dtbo_size 1632, recovery_dtbo_offset 1636
(u64), header_size 1644 → 1648. -/
def BOOT_HEADER_V1 : BootHeaderLayout :=
  { BOOT_HEADER_V0 with
    name := "BOOT_HEADER_V1"
    offset_recovery_dtbo_size := 1632
    offset_recovery_dtbo_offset := 1636
    offset_header_size := 1644
    total_size := 1648 }

/-- Inherits V1; dtb_size 1648, dtb_addr 1652 (u64, not exposed)
→ 1660. -/
def BOOT_HEADER_V2 : BootHeaderLayout :=
  { BOOT_HEADER_V1 with
    name := "BOOT_HEADER_V2"
    offset_dtb_size := 1648
    total_size := 1660 }

/-- Fresh layout (initial offset 8): kernel_size 8, ramdisk_size 12,
os_version 16, header_size 20 (not exposed), reserved 24 (16 bytes),
header_version 40, cmdline 44+1536 → 1580.  Exposed ifields:
kernel_size, ramdisk_size, header_version, os_version; sfields:
cmdline. -/
def BOOT_HEADER_V3 : BootHeaderLayout where
  name := "BOOT_HEADER_V3"
  offset_kernel_size := 8
  offset_ramdisk_size := 12
  offset_os_version := 16
  offset_header_version := 40
  offset_cmdline := 44
  size_cmdline := BOOT_ARGS_SIZE + BOOT_EXTRA_ARGS_SIZE
  total_size := 1580

/-- Inherits V3; signature_size 1580 → 1584. -/
def BOOT_HEADER_V4 : BootHeaderLayout :=
  { BOOT_HEADER_V3 with
    name := "BOOT_HEADER_V4"
    offset_signature_size := 1580
    total_size := 1584 }

/-- Fresh layout (initial offset 8): header_version 8, page_size 12,
kernel_addr 16, ramdisk_addr 20, ramdisk_size 24, cmdline 28+2048,
tags_addr 2076, name 2080+16 (not exposed), header_size 2096 (not
exposed), dtb_size 2100, dtb_addr 2104 (u64) → 2112.  Exposed ifields:
page_size, ramdisk_size, header_version, dtb_size; sfields: cmdline. -/
def VENDOR_BOOT_HEADER_V3 : BootHeaderLayout where
  name := "VENDOR_BOOT_HEADER_V3"
  offset_header_version := 8
  offset_page_size := 12
  offset_ramdisk_size := 24
  offset_cmdline := 28
  size_cmdline := VENDOR_BOOT_ARGS_SIZE
  offset_dtb_size := 2100
  total_size := 2112

/-- Inherits vendor V3; vendor_ramdisk_table_size 2112, entry_num 2116,
entry_size 2120, bootconfig_size 2124 → 2128. -/
def VENDOR_BOOT_HEADER_V4 : BootHeaderLayout :=
  { VENDOR_BOOT_HEADER_V3 with
    name := "VENDOR_BOOT_HEADER_V4"
    offset_vendor_ramdisk_table_size := 2112
    offset_vendor_ramdisk_table_entry_num := 2116
    offset_vendor_ramdisk_table_entry_size := 2120
    offset_bootconfig_size := 2124
    total_size := 2128 }

/-! ### `VendorRamdiskTableEntryV4` (layouts.rs)

Offsets from 0: ramdisk_size 0, ramdisk_offset 4, ramdisk_type 8,
ramdisk_name 12+32, board_id 44+64; SIZE = 108. -/

def VendorRamdiskTableEntryV4.offset_ramdisk_size : Nat := 0
def VendorRamdiskTableEntryV4.offset_ramdisk_offset : Nat := 4
def VendorRamdiskTableEntryV4.offset_ramdisk_type : Nat := 8
def VendorRamdiskTableEntryV4.SIZE : Nat := 108

inductive VendorRamdiskTableEntryType where
  | none
  | platform
  | recovery
  | unknown (raw : Nat)
deriving DecidableEq, Repr

/-- Models `VendorRamdiskTableEntryV4::get_ramdisk_type`. -/
def vendorRamdiskType (raw : Nat) : VendorRamdiskTableEntryType :=
  match raw with
  | 0 => .none
  | 1 => .platform
  | 2 => .recovery
  | r => .unknown r

/-- Models `VendorRamdiskTableEntryV4::patch(ramdisk_size, ramdisk_offset)`:
clone the 108-byte record and overwrite the two little-endian u32
fields at offsets 0 and 4. -/
def vendorEntryPatch (entry : List Nat) (ramdisk_size ramdisk_offset : Nat) : List Nat :=
  setBytes (setBytes entry VendorRamdiskTableEntryV4.offset_ramdisk_size (le32 ramdisk_size))
    VendorRamdiskTableEntryV4.offset_ramdisk_offset (le32 ramdisk_offset)

/-! ### `AvbFooter` (layouts.rs)

Offsets from 4 (after the 4-byte magic): version_major 4,
version_minor 8, original_image_size 12 (u64), vbmeta_offset 20 (u64),
vbmeta_size 28 (u64), reserved 36+28; SIZE = 64.  All big-endian. -/

def AvbFooter.offset_original_image_size : Nat := 12
def AvbFooter.offset_vbmeta_offset : Nat := 20
def AvbFooter.offset_vbmeta_size : Nat := 28
def AvbFooter.SIZE : Nat := 64

/-- Models `AvbFooter::get_original_image_size` (big-endian u64 at 12). -/
def AvbFooter.get_original_image_size (data : List Nat) : Nat :=
  readU64be data AvbFooter.offset_original_image_size

/-- Models `AvbFooter::get_vbmeta_offset` (big-endian u64 at 20). -/
def AvbFooter.get_vbmeta_offset (data : List Nat) : Nat :=
  readU64be data AvbFooter.offset_vbmeta_offset

/-- Models `AvbFooter::get_vbmeta_size` (big-endian u64 at 28). -/
def AvbFooter.get_vbmeta_size (data : List Nat) : Nat :=
  readU64be data AvbFooter.offset_vbmeta_size

/-- Models `AvbFooter::patch(original_image_size, vbmeta_offset)`: clone the
64-byte footer and overwrite the two big-endian u64 fields at offsets
12 and 20. -/
def AvbFooter.patch (data : List Nat) (original_image_size vbmeta_offset : Nat) : List Nat :=
  setBytes (setBytes data AvbFooter.offset_original_image_size (be64 original_image_size))
    AvbFooter.offset_vbmeta_offset (be64 vbmeta_offset)

/-! ## Header model (`parser.rs`) -/

/-- The string "ANDROID!" -/
def BOOT_MAGIC : List Nat := [65, 78, 68, 82, 79, 73, 68, 33]
/-- The string "VNDRBOOT" -/
def VENDOR_BOOT_MAGIC : List Nat := [86, 78, 68, 82, 66, 79, 79, 84]

inductive BootImageVersion where
  | android (v : Nat)
  | vendor (v : Nat)
deriving DecidableEq, Repr

structure OsVersion where
  a : Nat
  b : Nat
  c : Nat
deriving DecidableEq, Repr

structure PatchLevel where
  year : Nat
  month : Nat
deriving DecidableEq, Repr

/-- Error taxonomy of the `anyhow::bail!` sites in `parser.rs`. -/
inductive ParseError where
  /-- The string "unsupported boot version" -/
  | unsupportedBootVersion
  /-- The string "unsupported vendor boot version" -/
  | unsupportedVendorBootVersion
  /-- The string "invalid boot image" (bad magic, or version u32 unreadable) -/
  | invalidBootImage
  /-- The string "invalid block off size" -/
  | invalidBlock
  /-- The string "invalid vendor ramdisk table entry size" (entry size ≠ 108) -/
  | invalidEntrySize
  /-- The string "invalid vendor ramdisk table entry size" (table shorter than num*size) -/
  | invalidTableLen
  /-- The string "missing ramdisk" -/
  | missingRamdisk
  /-- The string "invalid vendor ramdisk entry off size" -/
  | invalidVendorEntry
  /-- The string "invalid avb original image size" -/
  | invalidAvbOriginalSize
  /-- The string "invalid avb header magic" -/
  | invalidAvbHeaderMagic
  /-- The string "invalid avb header" -/
  | invalidAvbHeader
deriving DecidableEq, Repr

/-- Models `BootHeader`: the (truncated) header bytes, the matched layout and
the variant. -/
structure BootHeader where
  data : List Nat
  layout : BootHeaderLayout
  version : BootImageVersion
deriving DecidableEq, Repr

/-- The generated integer accessors `get_<field>` read a
little-endian integer of the field's width at `layout.offset_<field>`
from the header bytes. -/
def BootHeader.get_kernel_size (h : BootHeader) : Nat :=
  readU32le h.data h.layout.offset_kernel_size

def BootHeader.get_ramdisk_size (h : BootHeader) : Nat :=
  readU32le h.data h.layout.offset_ramdisk_size

def BootHeader.get_second_size (h : BootHeader) : Nat :=
  readU32le h.data h.layout.offset_second_size

def BootHeader.get_page_size (h : BootHeader) : Nat :=
  readU32le h.data h.layout.offset_page_size

def BootHeader.get_os_version_raw (h : BootHeader) : Nat :=
  readU32le h.data h.layout.offset_os_version

def BootHeader.get_recovery_dtbo_size (h : BootHeader) : Nat :=
  readU32le h.data h.layout.offset_recovery_dtbo_size

def BootHeader.get_dtb_size (h : BootHeader) : Nat :=
  readU32le h.data h.layout.offset_dtb_size

def BootHeader.get_signature_size (h : BootHeader) : Nat :=
  readU32le h.data h.layout.offset_signature_size

def BootHeader.get_vendor_ramdisk_table_size (h : BootHeader) : Nat :=
  readU32le h.data h.layout.offset_vendor_ramdisk_table_size

def BootHeader.get_vendor_ramdisk_table_entry_num (h : BootHeader) : Nat :=
  readU32le h.data h.layout.offset_vendor_ramdisk_table_entry_num

def BootHeader.get_vendor_ramdisk_table_entry_size (h : BootHeader) : Nat :=
  readU32le h.data h.layout.offset_vendor_ramdisk_table_entry_size

def BootHeader.get_bootconfig_size (h : BootHeader) : Nat :=
  readU32le h.data h.layout.offset_bootconfig_size

/-- Models `BootHeader::get_os_version`, factored over the raw u32 value. -/
def get_os_version (version : Nat) : Option (OsVersion × PatchLevel) :=
  if version = 0 then none
  else
    let os_ver := version >>> 11
    let patch_level := version &&& 0x7ff
    let a := (os_ver >>> 14) &&& 0x7f
    let b := (os_ver >>> 7) &&& 0x7f
    let c := os_ver &&& 0x7f
    let y := (patch_level >>> 4) + 2000
    let m := patch_level &&& 0xf
    some (⟨a, b, c⟩, ⟨y, m⟩)

def BootHeader.get_os_version (h : BootHeader) : Option (OsVersion × PatchLevel) :=
  Bootimg.get_os_version h.get_os_version_raw

/-- Models `BootHeader::page_size`: 4096 for Android v ≥ 3, otherwise the
header's page_size field. -/
def BootHeader.page_size (h : BootHeader) : Nat :=
  match h.version with
  | .android v => if 3 ≤ v then 4096 else h.get_page_size
  | .vendor _ => h.get_page_size

/-- Models `BootHeader::hdr_space`. -/
def BootHeader.hdr_space (h : BootHeader) : Nat :=
  align_to h.layout.total_size h.page_size

/-- The `match version` in the Android arm of `BootHeader::parse`. -/
def android_layout? (version : Nat) : Option BootHeaderLayout :=
  match version with
  | 0 => some BOOT_HEADER_V0
  | 1 => some BOOT_HEADER_V1
  | 2 => some BOOT_HEADER_V2
  | 3 => some BOOT_HEADER_V3
  | 4 => some BOOT_HEADER_V4
  | _ => none

/-- The `match version` in the Vendor arm of `BootHeader::parse`. -/
def vendor_layout? (version : Nat) : Option BootHeaderLayout :=
  match version with
  | 3 => some VENDOR_BOOT_HEADER_V3
  | 4 => some VENDOR_BOOT_HEADER_V4
  | _ => none

/-- Models `BootHeader::parse`.  The version u32 is read at
`BOOT_HEADER_V0.offset_header_version` (= 40) for Android and at
`VENDOR_BOOT_HEADER_V3.offset_header_version` (= 8) for Vendor; after
the layout is selected, `&data[..layout.total_size]` panics when the
input is shorter than the layout. -/
def BootHeader.parse (data : List Nat) : PResult ParseError BootHeader :=
  if BOOT_MAGIC.isPrefixOf data then
    match u32_at data BOOT_HEADER_V0.offset_header_version with
    | some version =>
      match android_layout? version with
      | none => .err .unsupportedBootVersion
      | some layout =>
        if layout.total_size ≤ listLen data 0 then
          .ok ⟨data.take layout.total_size, layout, .android version⟩
        else .panicked
    | none => .err .invalidBootImage
  else if VENDOR_BOOT_MAGIC.isPrefixOf data then
    match u32_at data VENDOR_BOOT_HEADER_V3.offset_header_version with
    | some version =>
      match vendor_layout? version with
      | none => .err .unsupportedVendorBootVersion
      | some layout =>
        if layout.total_size ≤ listLen data 0 then
          .ok ⟨data.take layout.total_size, layout, .vendor version⟩
        else .panicked
    | none => .err .invalidBootImage
  else .err .invalidBootImage

/-! ## Block extractor (`parser.rs`, `BootImageBlocks::parse`) -/

/-- A carved block: the cursor position it starts at and the declared
size (both printed by the source's `build_blocks!` expansion) together
with the carved slice. -/
structure PlainBlock where
  off : Nat
  size : Nat
  data : List Nat
deriving DecidableEq, Repr

structure KernelImage where
  off : Nat
  size : Nat
  data : List Nat
  compress_format : CompressFormat
deriving DecidableEq, Repr

/-- A parsed vendor ramdisk table entry (`VendorRamdiskEntry`). -/
structure VendorRamdiskEntry where
  data : List Nat
  entry_offset : Nat
  entry_size : Nat
  entry_type : VendorRamdiskTableEntryType
  compress_format : CompressFormat
  /-- the raw 108-byte table record -/
  entry : List Nat
deriving DecidableEq, Repr

structure RamdiskImage where
  off : Nat
  size : Nat
  data : List Nat
  compress_format : CompressFormat
  vendor_ramdisk_table : Option (List VendorRamdiskEntry)
deriving DecidableEq, Repr

structure BootImageBlocks where
  kernel : Option KernelImage
  ramdisk : Option RamdiskImage
  second : Option PlainBlock
  recovery_dtbo : Option PlainBlock
  dtb : Option PlainBlock
  signature : Option PlainBlock
  bootconfig : Option PlainBlock
deriving DecidableEq, Repr

/-- One step of the `build_blocks!` walk: when the layout has the size
field (`present`) and its value is nonzero, carve
`data[off .. off+size]` (failing when out of range) and advance the
cursor by `align_to(size, page_size)`. -/
def stepBlock (data : List Nat) (page off : Nat) (present : Bool) (size : Nat) :
    PResult ParseError (Option PlainBlock × Nat) :=
  if present then
    if 0 < size then
      match sliceAt data off size with
      | some slice => .ok (some ⟨off, size, slice⟩, off + align_to size page)
      | none => .err .invalidBlock
    else .ok (none, off)
  else .ok (none, off)

/-- Models `VendorRamdiskTableEntryV4::get_ramdisk_size` (little-endian u32
at offset 0 of the 108-byte record). -/
def VendorRamdiskTableEntryV4.get_ramdisk_size (d : List Nat) : Nat :=
  readU32le d VendorRamdiskTableEntryV4.offset_ramdisk_size

/-- Models `VendorRamdiskTableEntryV4::get_ramdisk_offset` (little-endian u32
at offset 4). -/
def VendorRamdiskTableEntryV4.get_ramdisk_offset (d : List Nat) : Nat :=
  readU32le d VendorRamdiskTableEntryV4.offset_ramdisk_offset

/-- Models `VendorRamdiskTableEntryV4::get_ramdisk_type` raw value
(little-endian u32 at offset 8). -/
def VendorRamdiskTableEntryV4.get_ramdisk_type_raw (d : List Nat) : Nat :=
  readU32le d VendorRamdiskTableEntryV4.offset_ramdisk_type

/-- The per-chunk loop over the truncated vendor ramdisk table
(`entry_table.chunks(entry_size)`; the table was truncated to exactly
`entry_num * 108` bytes, so recursion on the entry count consuming 108
bytes per step walks the same chunks). -/
def parseEntries (n : Nat) (table rdata : List Nat) : PResult ParseError (List VendorRamdiskEntry) :=
  match n with
  | 0 => .ok []
  | n + 1 =>
    match sliceAt rdata
        (VendorRamdiskTableEntryV4.get_ramdisk_offset (table.take VendorRamdiskTableEntryV4.SIZE))
        (VendorRamdiskTableEntryV4.get_ramdisk_size (table.take VendorRamdiskTableEntryV4.SIZE)) with
    | some slice =>
      match parseEntries n (table.drop VendorRamdiskTableEntryV4.SIZE) rdata with
      | .ok rest =>
        .ok ({ data := slice,
               entry_offset :=
                 VendorRamdiskTableEntryV4.get_ramdisk_offset (table.take VendorRamdiskTableEntryV4.SIZE),
               entry_size :=
                 VendorRamdiskTableEntryV4.get_ramdisk_size (table.take VendorRamdiskTableEntryV4.SIZE),
               entry_type :=
                 vendorRamdiskType
                   (VendorRamdiskTableEntryV4.get_ramdisk_type_raw (table.take VendorRamdiskTableEntryV4.SIZE)),
               compress_format := parse_compress_format slice,
               entry := table.take VendorRamdiskTableEntryV4.SIZE } :: rest)
      | .err e => .err e
      | .panicked => .panicked
    | none => .err .invalidVendorEntry

/-- The vendor-ramdisk-table wrapping step of `BootImageBlocks::parse`
(entry size must be 108, the table block at least `num * 108` bytes and
then truncated to that, the ramdisk block present). -/
def parseTable (hdr : BootHeader) (vtb ramdisk : Option PlainBlock) :
    PResult ParseError (Option (List VendorRamdiskEntry)) :=
  match vtb with
  | none => .ok none
  | some tb =>
    if hdr.get_vendor_ramdisk_table_entry_size ≠ VendorRamdiskTableEntryV4.SIZE then
      .err .invalidEntrySize
    else if listLen tb.data 0 <
        hdr.get_vendor_ramdisk_table_entry_num * hdr.get_vendor_ramdisk_table_entry_size then
      .err .invalidTableLen
    else
      match ramdisk with
      | none => .err .missingRamdisk
      | some r =>
        match parseEntries hdr.get_vendor_ramdisk_table_entry_num
            (tb.data.take
              (hdr.get_vendor_ramdisk_table_entry_num * hdr.get_vendor_ramdisk_table_entry_size))
            r.data with
        | .ok es => .ok (some es)
        | .err e => .err e
        | .panicked => .panicked

/-- Models `BootImageBlocks::parse`: walk the canonical block order starting
at `hdr_space()`, then wrap the kernel, the vendor ramdisk table and
the ramdisk.  Returns the blocks and the final cursor. -/
def BootImageBlocks.parse (data : List Nat) (hdr : BootHeader) :
    PResult ParseError (BootImageBlocks × Nat) :=
  match stepBlock data hdr.page_size hdr.hdr_space (hdr.layout.offset_kernel_size ≠ 0)
      hdr.get_kernel_size with
  | .err e => .err e
  | .panicked => .panicked
  | .ok (kernelB, off) =>
  match stepBlock data hdr.page_size off (hdr.layout.offset_ramdisk_size ≠ 0)
      hdr.get_ramdisk_size with
  | .err e => .err e
  | .panicked => .panicked
  | .ok (ramdiskB, off) =>
  match stepBlock data hdr.page_size off (hdr.layout.offset_second_size ≠ 0)
      hdr.get_second_size with
  | .err e => .err e
  | .panicked => .panicked
  | .ok (second, off) =>
  match stepBlock data hdr.page_size off (hdr.layout.offset_recovery_dtbo_size ≠ 0)
      hdr.get_recovery_dtbo_size with
  | .err e => .err e
  | .panicked => .panicked
  | .ok (recovery_dtbo, off) =>
  match stepBlock data hdr.page_size off (hdr.layout.offset_dtb_size ≠ 0) hdr.get_dtb_size with
  | .err e => .err e
  | .panicked => .panicked
  | .ok (dtb, off) =>
  match stepBlock data hdr.page_size off (hdr.layout.offset_signature_size ≠ 0)
      hdr.get_signature_size with
  | .err e => .err e
  | .panicked => .panicked
  | .ok (signature, off) =>
  match stepBlock data hdr.page_size off (hdr.layout.offset_vendor_ramdisk_table_size ≠ 0)
      hdr.get_vendor_ramdisk_table_size with
  | .err e => .err e
  | .panicked => .panicked
  | .ok (vendor_ramdisk_table, off) =>
  match stepBlock data hdr.page_size off (hdr.layout.offset_bootconfig_size ≠ 0)
      hdr.get_bootconfig_size with
  | .err e => .err e
  | .panicked => .panicked
  | .ok (bootconfig, off) =>
    match parseTable hdr vendor_ramdisk_table ramdiskB with
    | .err e => .err e
    | .panicked => .panicked
    | .ok table =>
      .ok (⟨kernelB.map fun b => KernelImage.mk b.off b.size b.data (parse_compress_format b.data),
            ramdiskB.map fun b =>
              RamdiskImage.mk b.off b.size b.data
                (if table.isNone then parse_compress_format b.data else .UNKNOWN) table,
            second, recovery_dtbo, dtb, signature, bootconfig⟩, off)

/-! ## `BootImage::parse` (AVB footer discovery) -/

structure BootImageAVBInfo where
  avb_tail : Option (List Nat)
  avb_header : List Nat
  /-- the last 64 bytes of the image -/
  avb_footer : List Nat
deriving DecidableEq, Repr

structure BootImage where
  data : List Nat
  header : BootHeader
  blocks : BootImageBlocks
  avb_info : Option BootImageAVBInfo
deriving DecidableEq, Repr

/-- Models `BootImage::parse`.  `data.get(data.len()-64..)` is `None` for
inputs shorter than 64 bytes (usize subtraction wraps to a huge index),
in which case `avb_info` is `None`. -/
def BootImage.parse (data : List Nat) : PResult ParseError BootImage :=
  match BootHeader.parse data with
  | .err e => .err e
  | .panicked => .panicked
  | .ok header =>
  match BootImageBlocks.parse data header with
  | .err e => .err e
  | .panicked => .panicked
  | .ok (blocks, tail) =>
    let avbSlice : Option (List Nat) :=
      if AvbFooter.SIZE ≤ listLen data 0 then
        some (data.drop (listLen data 0 - AvbFooter.SIZE))
      else none
    match avbSlice with
    | none => .ok ⟨data, header, blocks, none⟩
    | some avb_footer =>
      if AVB_FOOTER_MAGIC.isPrefixOf avb_footer then
        let off := AvbFooter.get_vbmeta_offset avb_footer
        match sliceAt data off (AvbFooter.get_vbmeta_size avb_footer) with
        | none => .err .invalidAvbHeader
        | some avb_header =>
          if AVB_MAGIC.isPrefixOf avb_header then
            let avb_payload_size := AvbFooter.get_original_image_size avb_footer
            if tail < avb_payload_size then
              .ok ⟨data, header, blocks, some ⟨sliceAt data tail (avb_payload_size - tail), avb_header, avb_footer⟩⟩
            else if avb_payload_size < tail then .err .invalidAvbOriginalSize
            else .ok ⟨data, header, blocks, some ⟨none, avb_header, avb_footer⟩⟩
          else .err .invalidAvbHeaderMagic
      else .ok ⟨data, header, blocks, none⟩

/-! ## CPIO codec (`cpio.rs`) -/

def TYPE_REGULAR : Nat := 0o100000
def TYPE_DIR : Nat := 0o040000
def TYPE_SYMLINK : Nat := 0o120000
def TYPE_CHAR : Nat := 0o020000

/-- Models `CpioEntry` (paths and payloads are byte lists; Rust `String` keys
compare bytewise, exactly as the byte lists here do). -/
structure CpioEntry where
  mode : Nat
  uid : Nat
  gid : Nat
  rdev_major : Nat
  rdev_minor : Nat
  data : Option (List Nat)
deriving DecidableEq, Repr

/-- Models `CpioEntry::len`. -/
def CpioEntry.len (e : CpioEntry) : Nat :=
  (e.data.map List.length).getD 0

/-- Models `Cpio`: a `BTreeMap<String, CpioEntry>` modelled as an association
list sorted by bytewise path order. -/
structure Cpio where
  entries : List (List Nat × CpioEntry)
deriving DecidableEq, Repr

/-- Strict bytewise (lexicographic) order on paths — the `Ord` used by
the source's `BTreeMap<String, _>`. -/
def bytesLt : List Nat → List Nat → Bool
  | [], [] => false
  | [], _ :: _ => true
  | _ :: _, [] => false
  | a :: as_, b :: bs =>
    if a < b then true else if b < a then false else bytesLt as_ bs

/-- Models `BTreeMap::insert`: keep the list sorted, replacing an existing
key's value. -/
def insertEntry (k : List Nat) (v : CpioEntry) :
    List (List Nat × CpioEntry) → List (List Nat × CpioEntry)
  | [] => [(k, v)]
  | (k', v') :: rest =>
    if bytesLt k k' then (k, v) :: (k', v') :: rest
    else if k = k' then (k, v) :: rest
    else (k', v') :: insertEntry k v rest

inductive CpioError where
  /-- The string "unsupported cpio header" -/
  | badMagic
  /-- short read (`read_exact` UnexpectedEof) -/
  | eof
  /-- non-hex header field ("Invalid hex u32 header field") -/
  | badHex
  /-- The string "Entry name was not NUL-terminated" -/
  | nameNotTerminated
  /-- name is not valid UTF-8 -/
  | nameNotUtf8
  /-- loop-fuel exhaustion (unreachable: each iteration consumes at
  least 110 bytes of input, and the fuel is `data.length + 2`) -/
  | fuelExhausted
deriving DecidableEq, Repr

/-- One lowercase-hex / uppercase-hex digit (`u32::from_str_radix`
with radix 16 accepts both cases). -/
def hexDigit? (b : Nat) : Option Nat :=
  if 48 ≤ b ∧ b ≤ 57 then some (b - 48)
  else if 97 ≤ b ∧ b ≤ 102 then some (b - 87)
  else if 65 ≤ b ∧ b ≤ 70 then some (b - 55)
  else none

def hexValue : List Nat → Option Nat
  | [] => some 0
  | b :: rest =>
    match hexDigit? b, hexValue rest with
    | some d, some v => some (d * 16 ^ rest.length + v)
    | _, _ => none

/-- Models `read_hex_u32`: read 8 bytes and parse them as a hex u32 (an
8-digit hex value never overflows u32). -/
def readHexU32 (data : List Nat) (posn : Nat) : PResult CpioError Nat :=
  match sliceAt data posn 8 with
  | none => .err .eof
  | some bytes =>
    match hexValue bytes with
    | some v => .ok v
    | none => .err .badHex

/-- Read `k` consecutive 8-digit hex u32 fields. -/
def readHexFields (data : List Nat) (posn : Nat) : Nat → PResult CpioError (List Nat)
  | 0 => .ok []
  | k + 1 =>
    match readHexU32 data posn with
    | .err e => .err e
    | .panicked => .panicked
    | .ok v =>
      match readHexFields data (posn + 8) k with
      | .err e => .err e
      | .panicked => .panicked
      | .ok vs => .ok (v :: vs)

/-- Strip trailing NUL bytes (the loop popping `Some(&0)`). -/
def trimTrailingZeros (l : List Nat) : List Nat :=
  (l.reverse.dropWhile (· = 0)).reverse

/-- Validity of a byte sequence as UTF-8 (`String::from_utf8`): strict
RFC-3629 ranges, rejecting overlong forms and surrogates. -/
def isValidUtf8 : List Nat → Bool
  | [] => true
  | b :: rest =>
    if b ≤ 0x7f then isValidUtf8 rest
    else if 0xc2 ≤ b ∧ b ≤ 0xdf then
      match rest with
      | c :: rest' => 0x80 ≤ c && c ≤ 0xbf && isValidUtf8 rest'
      | [] => false
    else if b = 0xe0 then
      match rest with
      | c :: d :: rest' => 0xa0 ≤ c && c ≤ 0xbf && 0x80 ≤ d && d ≤ 0xbf && isValidUtf8 rest'
      | _ => false
    else if 0xe1 ≤ b ∧ b ≤ 0xec then
      match rest with
      | c :: d :: rest' => 0x80 ≤ c && c ≤ 0xbf && 0x80 ≤ d && d ≤ 0xbf && isValidUtf8 rest'
      | _ => false
    else if b = 0xed then
      match rest with
      | c :: d :: rest' => 0x80 ≤ c && c ≤ 0x9f && 0x80 ≤ d && d ≤ 0xbf && isValidUtf8 rest'
      | _ => false
    else if 0xee ≤ b ∧ b ≤ 0xef then
      match rest with
      | c :: d :: rest' => 0x80 ≤ c && c ≤ 0xbf && 0x80 ≤ d && d ≤ 0xbf && isValidUtf8 rest'
      | _ => false
    else if b = 0xf0 then
      match rest with
      | c :: d :: e :: rest' =>
        0x90 ≤ c && c ≤ 0xbf && 0x80 ≤ d && d ≤ 0xbf && 0x80 ≤ e && e ≤ 0xbf && isValidUtf8 rest'
      | _ => false
    else if 0xf1 ≤ b ∧ b ≤ 0xf3 then
      match rest with
      | c :: d :: e :: rest' =>
        0x80 ≤ c && c ≤ 0xbf && 0x80 ≤ d && d ≤ 0xbf && 0x80 ≤ e && e ≤ 0xbf && isValidUtf8 rest'
      | _ => false
    else if b = 0xf4 then
      match rest with
      | c :: d :: e :: rest' =>
        0x80 ≤ c && c ≤ 0x8f && 0x80 ≤ d && d ≤ 0xbf && 0x80 ≤ e && e ≤ 0xbf && isValidUtf8 rest'
      | _ => false
    else false

/-- The string "070701" -/
def CPIO_MAGIC : List Nat := [48, 55, 48, 55, 48, 49]

/-- The string "TRAILER!!!" -/
def CPIO_TRAILER : List Nat := [84, 82, 65, 73, 76, 69, 82, 33, 33, 33]

/-- Models `windows(6).position(|h| h == b"070701")`. -/
def findCpioMagic : List Nat → Option Nat
  | [] => none
  | l@(_ :: rest) =>
    if CPIO_MAGIC.isPrefixOf l then some 0
    else (findCpioMagic rest).map (· + 1)

/-- The record loop of `Cpio::load_from_data`.  `fuel` bounds the
iteration count; every iteration either terminates or advances the
cursor by at least 110 bytes, so `data.length + 2` iterations are
never exhausted. -/
def loadLoop (data : List Nat) : Nat → Nat → List (List Nat × CpioEntry) →
    PResult CpioError (List (List Nat × CpioEntry))
  | 0, _, _ => .err .fuelExhausted
  | fuel + 1, posn, acc =>
    match sliceAt data posn 6 with
    | none => .err .eof
    | some magic =>
      if magic ≠ CPIO_MAGIC then .err .badMagic
      else
        match readHexFields data (posn + 6) 13 with
        | .err e => .err e
        | .panicked => .panicked
        | .ok fields =>
          let mode := fields.getD 1 0
          let uid := fields.getD 2 0
          let gid := fields.getD 3 0
          let file_size := fields.getD 6 0
          let rdev_major := fields.getD 9 0
          let rdev_minor := fields.getD 10 0
          let name_len := fields.getD 11 0
          let posn := posn + 110
          match sliceAt data posn name_len with
          | none => .err .eof
          | some name_bytes =>
            if name_bytes.getLast? ≠ some 0 then .err .nameNotTerminated
            else
              let name := trimTrailingZeros (name_bytes.take (name_len - 1))
              if ¬ isValidUtf8 name then .err .nameNotUtf8
              else
                let posn := align_to (posn + name_len) 4
                if name = [46] ∨ name = [46, 46] then loadLoop data fuel posn acc
                else if name = CPIO_TRAILER then
                  match findCpioMagic (data.drop posn) with
                  | some x => loadLoop data fuel (posn + x) acc
                  | none => .ok acc
                else
                  match sliceAt data posn file_size with
                  | none => .err .eof
                  | some file_data =>
                    let entry : CpioEntry := ⟨mode, uid, gid, rdev_major, rdev_minor, some file_data⟩
                    loadLoop data fuel (align_to (posn + file_size) 4) (insertEntry name entry acc)

/-- Models `Cpio::load_from_data`. -/
def Cpio.load_from_data (data : List Nat) : PResult CpioError Cpio :=
  match loadLoop data (listLen data 0 + 2) 0 [] with
  | .ok es => .ok ⟨es⟩
  | .err e => .err e
  | .panicked => .panicked

/-- Models `{:08x}`: eight lowercase hex digits (every value written by
`dump` fits in eight digits). -/
def hex8 (n : Nat) : List Nat :=
  (List.range 8).map fun i =>
    let d := n / 16 ^ (7 - i) % 16
    if d < 10 then 48 + d else 87 + d

/-- A 110-byte newc record header: magic then 13 `{:08x}` fields. -/
def cpioHeader (ino mode uid gid nlink mtime file_size dev_major dev_minor rdev_major
    rdev_minor name_len checksum : Nat) : List Nat :=
  CPIO_MAGIC ++ hex8 ino ++ hex8 mode ++ hex8 uid ++ hex8 gid ++ hex8 nlink ++ hex8 mtime ++
    hex8 file_size ++ hex8 dev_major ++ hex8 dev_minor ++ hex8 rdev_major ++ hex8 rdev_minor ++
    hex8 name_len ++ hex8 checksum

/-- The entry loop of `Cpio::dump` followed by the trailer record.
After an entry's payload the source calls
`write_zeros(align_to(pos, 4))` — `align_to(pos, 4)` zero bytes, not
`align_to(pos, 4) - pos` — while `pos` itself is set to
`align_to(pos, 4)`; this mismatch is reproduced faithfully here (as is
the identical pattern after the trailer name). -/
def dumpLoop : List (List Nat × CpioEntry) → Nat → Nat → List Nat
  | [], pos, inode =>
    let pos1 := pos + 110 + 11
    cpioHeader inode 0o755 0 0 1 0 0 0 0 0 0 11 0 ++ CPIO_TRAILER ++ [0] ++
      zeros (align_to pos1 4)
  | (name, e) :: rest, pos, inode =>
    let hdr := cpioHeader inode e.mode e.uid e.gid 1 0 e.len 0 0 e.rdev_major e.rdev_minor
      (name.length + 1) 0
    let pos1 := pos + 110 + name.length + 1
    let chunk := hdr ++ name ++ [0] ++ zeros (align_to pos1 4 - pos1)
    match e.data with
    | some d =>
      let pos3 := align_to pos1 4 + d.length
      chunk ++ d ++ zeros (align_to pos3 4) ++ dumpLoop rest (align_to pos3 4) (inode + 1)
    | none => chunk ++ dumpLoop rest (align_to pos1 4) (inode + 1)

/-- Models `Cpio::dump` (inodes start at 300000). -/
def Cpio.dump (c : Cpio) : List Nat :=
  dumpLoop c.entries 0 300000

/-- Models `cpio::norm_path`: split on '/', drop empty components, rejoin. -/
def norm_path (path : List Nat) : List Nat :=
  List.intercalate [47] ((path.splitOn 47).filter (· ≠ []))

/-- Models `CpioEntry::regular`. -/
def CpioEntry.regular (mode : Nat) (data : List Nat) : CpioEntry :=
  ⟨mode ||| TYPE_REGULAR, 0, 0, 0, 0, some data⟩

/-- Models `CpioEntry::dir`. -/
def CpioEntry.dir (mode : Nat) : CpioEntry :=
  ⟨mode ||| TYPE_DIR, 0, 0, 0, 0, none⟩

/-- Models `CpioEntry::char`. -/
def CpioEntry.char (mode : Nat) (rdev_major rdev_minor : Nat) : CpioEntry :=
  ⟨mode ||| TYPE_CHAR, 0, 0, rdev_major, rdev_minor, none⟩

/-! ## Patcher (`patcher.rs`)

`patch` writes to a seekable sink; the byte offsets and sizes it
computes (`kernel_off`, `pos - kernel_off`, … — the values the source
prints and back-patches into the header) are recorded in a
`PatchTrace`.  Compression encoders are abstracted by a parameter
`enc : CompressFormat → List Nat → List Nat` giving the encoded bytes
of a stream; a stage that copies raw data does not use `enc`. -/

structure ReplacePayload where
  data : List Nat
  compressed : Bool
deriving DecidableEq, Repr

structure BootImagePatchOption where
  replace_ramdisk : Option ReplacePayload := none
  replace_kernel : Option ReplacePayload := none
  /-- Models `HashMap<usize, ReplacePayload>` as an association list with
  distinct keys -/
  replace_vendor_ramdisk : List (Nat × ReplacePayload) := []
  override_cmdline : Option (List Nat) := none
  override_os_version : Option (OsVersion × PatchLevel) := none
deriving DecidableEq, Repr

inductive PatchError where
  /-- The string "Could not determine compression format of kernel" -/
  | unknownKernelCompression
  /-- The string "Could not determine compression format of ramdisk" -/
  | unknownRamdiskCompression
  /-- The string "Could not replace ramdisk for vendor boot v4 …" -/
  | replaceRamdiskOnVendorBoot
  /-- The string "invalid index" -/
  | invalidVendorRamdiskIndex
  /-- The string "Could not replace vendor ramdisk …" -/
  | replaceVendorRamdiskOnNonVendor
deriving DecidableEq, Repr

structure PatchTrace where
  kernel_off : Nat
  kernel_size : Nat
  ramdisk_off : Nat
  ramdisk_size : Nat
  second_off : Nat
  second_size : Nat
  recovery_dtbo_off : Nat
  recovery_dtbo_size : Nat
  dtb_off : Nat
  dtb_size : Nat
  signature_off : Nat
  signature_size : Nat
  vendor_ramdisk_table_off : Nat
  vendor_ramdisk_table_size : Nat
  bootconfig_off : Nat
  bootconfig_size : Nat
  /-- updated vendor ramdisk table entries, when the source had one -/
  new_table : Option (List VendorRamdiskEntry)
  /-- The pair `(total_size, avb_header_off)` written into the patched footer -/
  avb : Option (Nat × Nat)
  end_pos : Nat
deriving DecidableEq, Repr

/-- Bytes written for a stream of raw data `d` re-encoded as `format`
(`UNKNOWN` means the raw-copy path `std::io::copy`). -/
def writtenLen (enc : CompressFormat → List Nat → List Nat) (format : CompressFormat)
    (d : List Nat) : Nat :=
  if format = .UNKNOWN then d.length else (enc format d).length

/-- The kernel step of `patch` (source selection, format selection and
write).  Returns `(kernel_size, pos)`. -/
def kernelStage (enc : CompressFormat → List Nat → List Nat) (src : BootImage)
    (opt : BootImagePatchOption) (pos : Nat) : PResult PatchError (Nat × Nat) :=
  let kernel_source : Option (List Nat × Bool) :=
    match opt.replace_kernel with
    | some payload => some (payload.data, payload.compressed)
    | none =>
      match src.blocks.kernel with
      | some kernel => some (kernel.data, true)
      | none => none
  match kernel_source with
  | none => .ok (0, pos)
  | some (d, compressed) =>
    if compressed then .ok (d.length, pos + d.length)
    else
      match src.blocks.kernel with
      | none => .err .unknownKernelCompression
      | some orig =>
        let w := writtenLen enc orig.compress_format d
        .ok (w, pos + w)

/-- The per-entry loop of the vendor-ramdisk branch: write each entry
(replacement or source bytes), recording the new relative offset and
written size.  Returns the final `pos` and the updated entries. -/
def vendorLoop (enc : CompressFormat → List Nat → List Nat)
    (rmap : List (Nat × ReplacePayload)) (ramdisk_off : Nat) :
    Nat → Nat → List VendorRamdiskEntry → Nat × List VendorRamdiskEntry
  | _, pos, [] => (pos, [])
  | index, pos, e :: rest =>
    let (d, compressed) :=
      match rmap.lookup index with
      | some payload => (payload.data, payload.compressed)
      | none => (e.data, true)
    let format := if compressed then CompressFormat.UNKNOWN else e.compress_format
    let w := writtenLen enc format d
    let e' := { e with entry_offset := pos - ramdisk_off, entry_size := w }
    let (pos', rest') := vendorLoop enc rmap ramdisk_off (index + 1) (pos + w) rest
    (pos', e' :: rest')

/-- The ramdisk step of `patch`: the vendor-table branch (rejecting
`replace_ramdisk`, rejecting out-of-range replacement indices, then
writing each entry) or the plain branch (rejecting
`replace_vendor_ramdisk`, then writing the single ramdisk).  Returns
`(ramdisk_size, new_table, pos)`. -/
def ramdiskStage (enc : CompressFormat → List Nat → List Nat) (src : BootImage)
    (opt : BootImagePatchOption) (ramdisk_off : Nat) :
    PResult PatchError (Nat × Option (List VendorRamdiskEntry) × Nat) :=
  match src.blocks.ramdisk.bind (·.vendor_ramdisk_table) with
  | some table =>
    if opt.replace_ramdisk.isSome then .err .replaceRamdiskOnVendorBoot
    else if opt.replace_vendor_ramdisk.any (fun p => table.length ≤ p.1) then
      .err .invalidVendorRamdiskIndex
    else
      let (pos, new_table) := vendorLoop enc opt.replace_vendor_ramdisk ramdisk_off 0 ramdisk_off table
      .ok (pos - ramdisk_off, some new_table, pos)
  | none =>
    if opt.replace_vendor_ramdisk ≠ [] then .err .replaceVendorRamdiskOnNonVendor
    else
      let ramdisk_source : Option (List Nat × Bool) :=
        match opt.replace_ramdisk with
        | some payload => some (payload.data, payload.compressed)
        | none =>
          match src.blocks.ramdisk with
          | some ramdisk => some (ramdisk.data, true)
          | none => none
      match ramdisk_source with
      | none => .ok (0, none, ramdisk_off)
      | some (d, compressed) =>
        if compressed then .ok (d.length, none, ramdisk_off + d.length)
        else
          match src.blocks.ramdisk with
          | none => .err .unknownRamdiskCompression
          | some orig =>
            let w := writtenLen enc orig.compress_format d
            .ok (w, none, ramdisk_off + w)

/-- Length of a verbatim-copied block (`copy_block!`): the source
slice's length, or 0 when absent. -/
def blockLen (b : Option PlainBlock) : Nat :=
  match b with
  | some pb => pb.data.length
  | none => 0

/-- Bytes written for the updated vendor ramdisk table: each entry's
108-byte record patched with its new (size, offset). -/
def tableEmitLen (t : Option (List VendorRamdiskEntry)) : Nat :=
  match t with
  | some es => (es.map fun e => (vendorEntryPatch e.entry e.entry_size e.entry_offset).length).sum
  | none => 0

/-- The AVB step: write the tail (if any), page-align, record
`total_size`, align to 4096, record `avb_header_off`, write the vbmeta
header verbatim (the footer rewrite at `len - 64` does not move the
cursor expressions recorded here). -/
def avbStage (src : BootImage) (page pos : Nat) : Option (Nat × Nat) × Nat :=
  match src.avb_info with
  | none => (none, pos)
  | some info =>
    let pos :=
      match info.avb_tail with
      | some t => pos + t.length
      | none => pos
    let pos := align_to pos page
    let total_size := pos
    let avb_header_off := align_to pos 4096
    (some (total_size, avb_header_off), avb_header_off + info.avb_header.length)

/-- Models `BootImagePatchOption::patch`.  The initial
`write_all(&data[..hdr_space()])` panics when the source bytes are
shorter than the header space.  Block offsets and sizes mirror the
source's cursor arithmetic: a `file_align!` follows the kernel, the
ramdisk and each `copy_block!`, but none separates the vendor ramdisk
table from the bootconfig block. -/
def BootImagePatchOption.patch (enc : CompressFormat → List Nat → List Nat)
    (src : BootImage) (opt : BootImagePatchOption) : PResult PatchError PatchTrace :=
  if listLen src.data 0 < src.header.hdr_space then .panicked
  else
    let page := src.header.page_size
    let kernel_off := src.header.hdr_space
    match kernelStage enc src opt kernel_off with
    | .err e => .err e
    | .panicked => .panicked
    | .ok (kernel_size, kpos) =>
      let ramdisk_off := align_to kpos page
      match ramdiskStage enc src opt ramdisk_off with
      | .err e => .err e
      | .panicked => .panicked
      | .ok (ramdisk_size, new_table, rpos) =>
        let second_off := align_to rpos page
        let second_size := blockLen src.blocks.second
        let recovery_dtbo_off := align_to (second_off + second_size) page
        let recovery_dtbo_size := blockLen src.blocks.recovery_dtbo
        let dtb_off := align_to (recovery_dtbo_off + recovery_dtbo_size) page
        let dtb_size := blockLen src.blocks.dtb
        let signature_off := align_to (dtb_off + dtb_size) page
        let signature_size := blockLen src.blocks.signature
        let vendor_ramdisk_table_off := align_to (signature_off + signature_size) page
        let vendor_ramdisk_table_size := tableEmitLen new_table
        let bootconfig_off := vendor_ramdisk_table_off + vendor_ramdisk_table_size
        let bootconfig_size := blockLen src.blocks.bootconfig
        let bpos := align_to (bootconfig_off + bootconfig_size) page
        let (avb, end_pos) := avbStage src page bpos
        .ok ⟨kernel_off, kernel_size, ramdisk_off, ramdisk_size, second_off, second_size,
          recovery_dtbo_off, recovery_dtbo_size, dtb_off, dtb_size, signature_off,
          signature_size, vendor_ramdisk_table_off, vendor_ramdisk_table_size,
          bootconfig_off, bootconfig_size, new_table, avb, end_pos⟩

/-! ## Concrete images used by witnesses and counterexamples -/

/-- Android image bytes whose u32 at offset 8 is 7 while the u32 at
offset 40 (the actual header-version position) is 0; length 1632
(= `BOOT_HEADER_V0.total_size`). -/
def c1data : List Nat :=
  BOOT_MAGIC ++ [7, 0, 0, 0] ++ zeros 28 ++ [0, 0, 0, 0] ++ zeros 1588

/-- Android image bytes of length 44 whose header-version u32 (offset
40) is 9 — unsupported. -/
def c1badVersion : List Nat :=
  BOOT_MAGIC ++ zeros 32 ++ [9, 0, 0, 0]

/-- Returns `some h.version` when the header parses. -/
def parsedVersion (r : PResult ParseError BootHeader) : Option BootImageVersion :=
  match r with
  | .ok h => some h.version
  | _ => none

/-- The single-entry archive of the round-trip failure: `/init`,
regular, mode 0o100755, payload "#!/bin/sh\n". -/
def c2cpio : Cpio :=
  ⟨[([105, 110, 105, 116],
     ⟨0o100755, 0, 0, 0, 0, some [35, 33, 47, 98, 105, 110, 47, 115, 104, 10]⟩)]⟩

/-- Vendor boot v4 header bytes, page_size 8, ramdisk_size 1,
vendor_ramdisk_table_size 108, entry_num 1, entry_size 108,
bootconfig_size 4. -/
def c3hdr : List Nat :=
  VENDOR_BOOT_MAGIC ++ le32 4 ++ le32 8 ++ zeros 8 ++ le32 1 ++ zeros 2084 ++
    le32 108 ++ le32 1 ++ le32 108 ++ le32 4

/-- A 108-byte vendor ramdisk table entry: ramdisk_size 1,
ramdisk_offset 0, type 0, name and board_id zero. -/
def vEntry108 : List Nat :=
  le32 1 ++ le32 0 ++ zeros 100

/-- A vendor boot v4 image (page_size 8) with a one-entry vendor
ramdisk table and a 4-byte bootconfig block: header space 2128,
ramdisk at 2128, table at 2136, bootconfig at 2248. -/
def c3data : List Nat :=
  c3hdr ++ [0] ++ zeros 7 ++ vEntry108 ++ zeros 4 ++ [1, 2, 3, 4]

/-- The identity encoder stand-in (never consulted on the raw-copy
paths exercised below). -/
def encId : CompressFormat → List Nat → List Nat := fun _ d => d

/-- Parse an image and patch it, keeping the trace. -/
def patchOf (data : List Nat) (opt : BootImagePatchOption) : Option PatchTrace :=
  match BootImage.parse data with
  | .ok img =>
    match BootImagePatchOption.patch encId img opt with
    | .ok tr => some tr
    | _ => none
  | _ => none

/-- The `page_size()` of a parsed image. -/
def pageOf (data : List Nat) : Option Nat :=
  match BootImage.parse data with
  | .ok img => some img.header.page_size
  | _ => none

/-- Vendor boot v4 header bytes, page_size 1, ramdisk_size 1,
vendor_ramdisk_table_size 216, entry_num 2, entry_size 108. -/
def c6hdr : List Nat :=
  VENDOR_BOOT_MAGIC ++ le32 4 ++ le32 1 ++ zeros 8 ++ le32 1 ++ zeros 2084 ++
    le32 216 ++ le32 2 ++ le32 108 ++ le32 0

/-- A vendor boot v4 image whose two table entries both cover the whole
1-byte ramdisk block: each entry is in range, but the sizes sum to 2. -/
def c6data : List Nat :=
  c6hdr ++ [0] ++ vEntry108 ++ vEntry108

/-- The pair `(sum of entry sizes, ramdisk block length)` of a parsed vendor
ramdisk table. -/
def tableSumOf (data : List Nat) : Option (Nat × Nat) :=
  match BootImage.parse data with
  | .ok img =>
    match img.blocks.ramdisk with
    | some r =>
      match r.vendor_ramdisk_table with
      | some es => some ((es.map VendorRamdiskEntry.entry_size).sum, r.data.length)
      | none => none
    | none => none
  | _ => none

/-- Android v0 header bytes, page_size 8, kernel_size 1. -/
def c7hdr : List Nat :=
  BOOT_MAGIC ++ le32 1 ++ zeros 24 ++ le32 8 ++ le32 0 ++ zeros 1588

/-- An Android v0 image (page_size 8) whose 1-byte kernel block has
UNKNOWN compression format. -/
def c7data : List Nat :=
  c7hdr ++ [0]

/-- A raw (compressed = false) kernel replacement stream. -/
def c7opt : BootImagePatchOption :=
  { replace_kernel := some ⟨[5, 6], false⟩ }

/-- Compression format of a parsed image's kernel block. -/
def kernelFormatOf (data : List Nat) : Option CompressFormat :=
  match BootImage.parse data with
  | .ok img => img.blocks.kernel.map KernelImage.compress_format
  | _ => none

/-! ## Helper lemmas -/

theorem align_to_mod (n a : Nat) : align_to n a % a = 0 := by
  unfold align_to
  exact Nat.mul_mod_left _ _

theorem is_pow2_pos {n : Nat} (h : is_pow2 n = true) : 0 < n := by
  unfold is_pow2 at h
  simp only [Bool.and_eq_true, bne_iff_ne, ne_eq] at h
  omega

theorem sliceAt_some_bound {data slice : List Nat} {off len : Nat}
    (h : sliceAt data off len = some slice) : off + len ≤ data.length := by
  unfold sliceAt at h
  rw [listLen_eq0] at h
  split at h
  · assumption
  · cases h

theorem android_layout?_eq_none {v : Nat}
    (h : ¬(v = 0 ∨ v = 1 ∨ v = 2 ∨ v = 3 ∨ v = 4)) : android_layout? v = none := by
  match v with
  | 0 => exact absurd (Or.inl rfl) h
  | 1 => exact absurd (Or.inr (Or.inl rfl)) h
  | 2 => exact absurd (Or.inr (Or.inr (Or.inl rfl))) h
  | 3 => exact absurd (Or.inr (Or.inr (Or.inr (Or.inl rfl)))) h
  | 4 => exact absurd (Or.inr (Or.inr (Or.inr (Or.inr rfl)))) h
  | (_ + 5) => rfl

/-- A buffer starting with "VNDRBOOT" does not start with "ANDROID!"
(the first bytes differ). -/
theorem boot_magic_not_vendor {data : List Nat}
    (h : VENDOR_BOOT_MAGIC.isPrefixOf data = true) :
    BOOT_MAGIC.isPrefixOf data = false := by
  cases data with
  | nil => exact absurd h (by decide)
  | cons b bs =>
    have hb : b = 86 := by
      rw [show VENDOR_BOOT_MAGIC = 86 :: [78, 68, 82, 66, 79, 79, 84] from rfl,
        List.isPrefixOf_cons₂, Bool.and_eq_true] at h
      have := h.1
      simp only [beq_iff_eq] at this
      omega
    subst hb
    rfl

theorem vendor_layout?_eq_none {v : Nat}
    (h : ¬(v = 3 ∨ v = 4)) : vendor_layout? v = none := by
  match v with
  | 0 => rfl
  | 1 => rfl
  | 2 => rfl
  | 3 => exact absurd (Or.inl rfl) h
  | 4 => exact absurd (Or.inr rfl) h
  | (_ + 5) => rfl

/-! ## C4 — OS-version decoding -/

/-- C4 (counterexample): on raw value 0x03FD0014 the decoder yields
OsVersion (1, 127, 32), not the (12, 1, 32) the claim states. -/
theorem C4_os_version_claim_false :
    get_os_version 0x03FD0014 = some (⟨1, 127, 32⟩, ⟨2001, 4⟩) ∧
    (OsVersion.mk 1 127 32 ≠ OsVersion.mk 12 1 32) := by
  constructor
  · decide
  · decide

/-- C4 (amended): `get_os_version 0x03FD0014` returns OsVersion
(1, 127, 32) and PatchLevel (2001, 4), with intermediate values
os_ver = raw >> 11 = 0x7FA0 and patch = raw & 0x7ff = 0x014; raw value
0 returns None. -/
theorem C4_os_version_decoding :
    get_os_version 0x03FD0014 = some (⟨1, 127, 32⟩, ⟨2001, 4⟩) ∧
    0x03FD0014 >>> 11 = 0x7FA0 ∧
    0x03FD0014 &&& 0x7ff = 0x014 ∧
    get_os_version 0 = none := by
  refine ⟨by decide, by decide, by decide, by decide⟩

/-! ## C2 — CPIO round-trip -/

/-- C2 (code bug): the round-trip fails on an archive with one
non-empty payload.  `dump` writes `align_to(pos, 4)` zero bytes after
the payload where `align_to(pos, 4) - pos` is intended, so
`load_from_data` finds zero bytes where the next record's magic should
be and fails with "unsupported cpio header". -/
theorem C2_roundtrip_fails_on_payload :
    Cpio.load_from_data (Cpio.dump c2cpio) = .err .badMagic := by
  decide

/-! ## C1 — variant dispatch in `BootHeader::parse` -/

/-- C1 (counterexample): an "ANDROID!" image whose u32 at offset 8 is
7 — which the claim says must fail with UNSUPPORTED_VERSION — parses
successfully, as Android version 0: the version is read at offset 40,
not 8. -/
theorem C1_version_not_at_offset_8 :
    parsedVersion (BootHeader.parse c1data) = some (.android 0) ∧
    u32_at c1data 8 = some 7 ∧
    ¬((7 : Nat) = 0 ∨ (7 : Nat) = 1 ∨ (7 : Nat) = 2 ∨ (7 : Nat) = 3 ∨ (7 : Nat) = 4) := by
  refine ⟨by decide, by decide, by decide⟩

/-- C1 (amended): the variant is determined solely by the first 8
bytes together with a u32 little-endian header-version read at offset
40 for Android images ("ANDROID!") and at offset 8 for Vendor images
("VNDRBOOT"); a version outside {0,1,2,3,4} (Android) or {3,4}
(Vendor) fails with the unsupported-version error. -/
theorem C1_version_dispatch :
    (∀ (data : List Nat) (v : Nat),
      BOOT_MAGIC.isPrefixOf data = true →
      u32_at data 40 = some v →
      ¬(v = 0 ∨ v = 1 ∨ v = 2 ∨ v = 3 ∨ v = 4) →
      BootHeader.parse data = .err .unsupportedBootVersion) ∧
    (∀ (data : List Nat) (v : Nat),
      VENDOR_BOOT_MAGIC.isPrefixOf data = true →
      u32_at data 8 = some v →
      ¬(v = 3 ∨ v = 4) →
      BootHeader.parse data = .err .unsupportedVendorBootVersion) ∧
    (∀ (data : List Nat) (h : BootHeader),
      BootHeader.parse data = .ok h →
      (BOOT_MAGIC.isPrefixOf data = true ∧
        ∃ v, u32_at data 40 = some v ∧ h.version = .android v ∧
          android_layout? v = some h.layout) ∨
      (VENDOR_BOOT_MAGIC.isPrefixOf data = true ∧
        ∃ v, u32_at data 8 = some v ∧ h.version = .vendor v ∧
          vendor_layout? v = some h.layout)) := by
  refine ⟨?_, ?_, ?_⟩
  · intro data v hm hv hout
    unfold BootHeader.parse
    rw [if_pos hm]
    rw [show BOOT_HEADER_V0.offset_header_version = 40 from rfl, hv]
    simp only [android_layout?_eq_none hout]
  · intro data v hm hv hout
    unfold BootHeader.parse
    rw [boot_magic_not_vendor hm]
    simp only [Bool.false_eq_true, if_false]
    rw [if_pos hm]
    rw [show VENDOR_BOOT_HEADER_V3.offset_header_version = 8 from rfl, hv]
    simp only [vendor_layout?_eq_none hout]
  · intro data h hp
    unfold BootHeader.parse at hp
    rw [show BOOT_HEADER_V0.offset_header_version = 40 from rfl,
      show VENDOR_BOOT_HEADER_V3.offset_header_version = 8 from rfl] at hp
    by_cases hb : BOOT_MAGIC.isPrefixOf data = true
    · rw [if_pos hb] at hp
      left
      refine ⟨hb, ?_⟩
      cases hu : u32_at data 40 with
      | none => rw [hu] at hp; cases hp
      | some v =>
        rw [hu] at hp
        cases hl : android_layout? v with
        | none => simp only [hl] at hp; cases hp
        | some L =>
          simp only [hl] at hp
          split at hp
          · cases hp
            exact ⟨v, rfl, rfl, hl⟩
          · cases hp
    · rw [if_neg hb] at hp
      by_cases hv : VENDOR_BOOT_MAGIC.isPrefixOf data = true
      · rw [if_pos hv] at hp
        right
        refine ⟨hv, ?_⟩
        cases hu : u32_at data 8 with
        | none => rw [hu] at hp; cases hp
        | some v =>
          rw [hu] at hp
          cases hl : vendor_layout? v with
          | none => simp only [hl] at hp; cases hp
          | some L =>
            simp only [hl] at hp
            split at hp
            · cases hp
              exact ⟨v, rfl, rfl, hl⟩
            · cases hp
      · rw [if_neg hv] at hp
        cases hp

/-- C1 witness: the unsupported-version arms and the inversion at
concrete inputs. -/
theorem C1_version_dispatch_witness :
    BootHeader.parse c1badVersion = .err .unsupportedBootVersion ∧
    ((BOOT_MAGIC.isPrefixOf c1data = true ∧
        ∃ v, u32_at c1data 40 = some v ∧
          (BootHeader.mk (c1data.take 1632) BOOT_HEADER_V0 (.android 0)).version = .android v ∧
          android_layout? v = some (BootHeader.mk (c1data.take 1632) BOOT_HEADER_V0 (.android 0)).layout) ∨
      (VENDOR_BOOT_MAGIC.isPrefixOf c1data = true ∧
        ∃ v, u32_at c1data 8 = some v ∧
          (BootHeader.mk (c1data.take 1632) BOOT_HEADER_V0 (.android 0)).version = .vendor v ∧
          vendor_layout? v = some (BootHeader.mk (c1data.take 1632) BOOT_HEADER_V0 (.android 0)).layout)) :=
  ⟨C1_version_dispatch.1 c1badVersion 9 (by rfl) (by rfl) (by decide),
   C1_version_dispatch.2.2 c1data ⟨c1data.take 1632, BOOT_HEADER_V0, .android 0⟩ (by rfl)⟩

/-! ## C10 — short inputs panic; parsed headers have layout size -/

/-- C10: when the magic matches and the header-version selects a
supported layout but the input is shorter than the layout's
total_size, `BootHeader::parse` panics (out-of-range slice) instead of
returning an error; consequently a successfully parsed header
satisfies `data.len() == layout.total_size`. -/
theorem C10_short_input_panics :
    (∀ (data : List Nat) (v : Nat) (L : BootHeaderLayout),
      BOOT_MAGIC.isPrefixOf data = true →
      u32_at data 40 = some v →
      android_layout? v = some L →
      data.length < L.total_size →
      BootHeader.parse data = .panicked) ∧
    (∀ (data : List Nat) (v : Nat) (L : BootHeaderLayout),
      VENDOR_BOOT_MAGIC.isPrefixOf data = true →
      u32_at data 8 = some v →
      vendor_layout? v = some L →
      data.length < L.total_size →
      BootHeader.parse data = .panicked) ∧
    (∀ (data : List Nat) (h : BootHeader),
      BootHeader.parse data = .ok h →
      h.data.length = h.layout.total_size) := by
  refine ⟨?_, ?_, ?_⟩
  · intro data v L hm hv hl hlen
    unfold BootHeader.parse
    rw [if_pos hm]
    rw [show BOOT_HEADER_V0.offset_header_version = 40 from rfl, hv]
    simp only [hl]
    rw [listLen_eq0, if_neg (by omega)]
  · intro data v L hm hv hl hlen
    unfold BootHeader.parse
    rw [boot_magic_not_vendor hm]
    simp only [Bool.false_eq_true, if_false]
    rw [if_pos hm]
    rw [show VENDOR_BOOT_HEADER_V3.offset_header_version = 8 from rfl, hv]
    simp only [hl]
    rw [listLen_eq0, if_neg (by omega)]
  · intro data h hp
    unfold BootHeader.parse at hp
    cases hb : BOOT_MAGIC.isPrefixOf data with
    | true =>
      rw [hb] at hp
      simp only [if_true] at hp
      cases hu : u32_at data BOOT_HEADER_V0.offset_header_version with
      | none => rw [hu] at hp; cases hp
      | some v =>
        rw [hu] at hp
        cases hl : android_layout? v with
        | none => simp only [hl] at hp; cases hp
        | some L =>
          simp only [hl] at hp
          split at hp
          case isTrue hc =>
            cases hp
            rw [listLen_eq0] at hc
            simp [List.length_take, Nat.min_eq_left hc]
          case isFalse => cases hp
    | false =>
      rw [hb] at hp
      simp only [Bool.false_eq_true, if_false] at hp
      cases hv : VENDOR_BOOT_MAGIC.isPrefixOf data with
      | true =>
        rw [hv] at hp
        simp only [if_true] at hp
        cases hu : u32_at data VENDOR_BOOT_HEADER_V3.offset_header_version with
        | none => rw [hu] at hp; cases hp
        | some v =>
          rw [hu] at hp
          cases hl : vendor_layout? v with
          | none => simp only [hl] at hp; cases hp
          | some L =>
            simp only [hl] at hp
            split at hp
            case isTrue hc =>
              cases hp
              rw [listLen_eq0] at hc
              simp [List.length_take, Nat.min_eq_left hc]
            case isFalse => cases hp
      | false =>
        rw [hv] at hp
        simp only [Bool.false_eq_true, if_false] at hp
        cases hp

/-- An Android image of 44 bytes (long enough to read the version,
shorter than the v0 layout). -/
def c10data : List Nat := BOOT_MAGIC ++ zeros 36

/-- C10 witness: the 44-byte truncated v0 image panics, and the parsed
`c1data` header has exactly 1632 bytes. -/
theorem C10_short_input_panics_witness :
    BootHeader.parse c10data = .panicked ∧
    (BootHeader.mk (c1data.take 1632) BOOT_HEADER_V0 (.android 0)).data.length =
      (BootHeader.mk (c1data.take 1632) BOOT_HEADER_V0 (.android 0)).layout.total_size :=
  ⟨C10_short_input_panics.1 c10data 0 BOOT_HEADER_V0 (by rfl) (by rfl) (by rfl) (by decide),
   C10_short_input_panics.2.2 c1data ⟨c1data.take 1632, BOOT_HEADER_V0, .android 0⟩ (by rfl)⟩

/-! ## C9 — `AvbFooter::patch` frame property -/

theorem take_append_at {α : Type} {l₁ l₂ : List α} {k n m : Nat}
    (hl : l₁.length = n) (hk : k = n + m) : (l₁ ++ l₂).take k = l₁ ++ l₂.take m := by
  subst hk
  subst hl
  exact List.take_append m

theorem drop_append_at {α : Type} {l₁ l₂ : List α} {k n m : Nat}
    (hl : l₁.length = n) (hk : k = n + m) : (l₁ ++ l₂).drop k = l₂.drop m := by
  subst hk
  subst hl
  exact List.drop_append m

/-- Normal form of the patched footer: unchanged bytes 0–11, big-endian
`s` at 12–19, big-endian `o` at 20–27, unchanged bytes from 28 on. -/
theorem avb_patch_eq (f : List Nat) (s o : Nat) (h : 28 ≤ f.length) :
    AvbFooter.patch f s o = f.take 12 ++ be64 s ++ be64 o ++ f.drop 28 := by
  have h12 : (f.take 12).length = 12 := by rw [List.length_take]; omega
  have hA : setBytes f 12 (be64 s) = f.take 12 ++ (be64 s ++ f.drop 20) := by
    simp [setBytes, be64]
  show setBytes (setBytes f 12 (be64 s)) 20 (be64 o) = _
  rw [hA]
  unfold setBytes
  rw [show (20 + (be64 o).length : Nat) = 28 from rfl]
  rw [take_append_at h12 (by norm_num : (20 : Nat) = 12 + 8),
    List.take_left' (show (be64 s).length = 8 from rfl)]
  rw [drop_append_at h12 (by norm_num : (28 : Nat) = 12 + 16),
    drop_append_at (show (be64 s).length = 8 from rfl) (by norm_num : (16 : Nat) = 8 + 8)]
  simp [List.drop_drop, List.append_assoc]

/-- C9: `AvbFooter::patch(s, o)` on a 64-byte footer returns a 64-byte
buffer whose bytes 12..20 are `s` big-endian, bytes 20..28 are `o`
big-endian, and all other bytes (magic, versions, vbmeta_size,
reserved) equal the original footer's. -/
theorem C9_avb_footer_patch (f : List Nat) (s o : Nat) (h : f.length = 64) :
    (AvbFooter.patch f s o).length = 64 ∧
    ((AvbFooter.patch f s o).drop 12).take 8 = be64 s ∧
    ((AvbFooter.patch f s o).drop 20).take 8 = be64 o ∧
    (AvbFooter.patch f s o).take 12 = f.take 12 ∧
    (AvbFooter.patch f s o).drop 28 = f.drop 28 := by
  rw [avb_patch_eq f s o (by omega)]
  have h12 : (f.take 12).length = 12 := by rw [List.length_take]; omega
  have hs8 : (be64 s).length = 8 := rfl
  have ho8 : (be64 o).length = 8 := rfl
  refine ⟨?_, ?_, ?_, ?_, ?_⟩
  · simp only [List.length_append, h12, hs8, ho8, List.length_drop, h]
  · rw [List.append_assoc, List.append_assoc,
      drop_append_at h12 (by norm_num : (12 : Nat) = 12 + 0), List.drop_zero,
      List.take_left' hs8]
  · rw [List.append_assoc, List.append_assoc,
      drop_append_at h12 (by norm_num : (20 : Nat) = 12 + 8),
      List.drop_left' hs8, List.take_left' ho8]
  · rw [List.append_assoc, List.append_assoc,
      take_append_at h12 (by norm_num : (12 : Nat) = 12 + 0), List.take_zero,
      List.append_nil]
  · rw [List.append_assoc, List.append_assoc,
      drop_append_at h12 (by norm_num : (28 : Nat) = 12 + 16),
      drop_append_at hs8 (by norm_num : (16 : Nat) = 8 + 8), List.drop_left' ho8]

/-! ## C6 — vendor ramdisk table subranges -/

/-- Every entry produced by the table-entry loop lies within the
ramdisk block (`ramdisk.get(off..off+sz)` succeeded). -/
theorem parseEntries_entry_bound :
    ∀ (n : Nat) (table rdata : List Nat) (es : List VendorRamdiskEntry),
      parseEntries n table rdata = .ok es →
      ∀ e ∈ es, e.entry_offset + e.entry_size ≤ rdata.length := by
  intro n
  induction n with
  | zero =>
    intro table rdata es h e he
    unfold parseEntries at h
    cases h
    simp at he
  | succ n ih =>
    intro table rdata es h e he
    unfold parseEntries at h
    cases hso : sliceAt rdata
        (VendorRamdiskTableEntryV4.get_ramdisk_offset (table.take VendorRamdiskTableEntryV4.SIZE))
        (VendorRamdiskTableEntryV4.get_ramdisk_size (table.take VendorRamdiskTableEntryV4.SIZE)) with
    | none =>
      rw [hso] at h
      cases h
    | some slice =>
      rw [hso] at h
      cases hrest : parseEntries n (table.drop VendorRamdiskTableEntryV4.SIZE) rdata with
      | ok rest =>
        simp only [hrest] at h
        cases h
        rw [List.mem_cons] at he
        rcases he with rfl | he
        · simpa using sliceAt_some_bound hso
        · exact ih _ _ _ hrest e he
      | err e2 => simp only [hrest] at h; cases h
      | panicked => simp only [hrest] at h; cases h

/-- C6 (amended): for every vendor ramdisk table that parses
successfully, each entry satisfies `offset + size ≤ len(ramdisk_block)`
(the sum of the sizes need not be bounded — entries may overlap, see
the counterexample). -/
theorem C6_vendor_subranges (data : List Nat) (hdr : BootHeader)
    (b : BootImageBlocks) (c : Nat) (r : RamdiskImage) (es : List VendorRamdiskEntry)
    (hp : BootImageBlocks.parse data hdr = .ok (b, c))
    (hr : b.ramdisk = some r)
    (ht : r.vendor_ramdisk_table = some es) :
    ∀ e ∈ es, e.entry_offset + e.entry_size ≤ r.data.length := by
  unfold BootImageBlocks.parse at hp
  iterate 8 (split at hp <;> try cases hp)
  split at hp
  · cases hp
  · cases hp
  · rename_i table hTable
    cases hp
    simp only [BootImageBlocks.ramdisk] at hr
    obtain ⟨pb, hpb, hf⟩ := Option.map_eq_some'.mp hr
    subst hf
    simp only [RamdiskImage.vendor_ramdisk_table] at ht
    subst ht
    unfold parseTable at hTable
    split at hTable
    · cases hTable
    · split at hTable
      · cases hTable
      · split at hTable
        · cases hTable
        · split at hTable
          · cases hTable
          · rw [Option.some.injEq] at hpb
            subst hpb
            split at hTable
            · rename_i es3 hes
              cases hTable
              simpa using parseEntries_entry_bound _ _ _ _ hes
            · cases hTable
            · cases hTable

/-- C6 (counterexample): a table whose two entries each span the whole
1-byte ramdisk block parses successfully; each entry is in range, but
the sizes sum to 2 > 1, falsifying the claimed `Σ sizes ≤
len(ramdisk_block)`. -/
theorem C6_sum_bound_fails :
    tableSumOf c6data = some (2, 1) ∧ ¬(2 ≤ 1) :=
  ⟨by decide, by decide⟩

def c6wEntry : VendorRamdiskEntry := ⟨[0], 0, 1, .none, .UNKNOWN, vEntry108⟩

def c6wRamdisk : RamdiskImage := ⟨2128, 1, [0], .UNKNOWN, some [c6wEntry, c6wEntry]⟩

/-- C6 witness: the per-entry bound at the first entry of the concrete
two-entry image. -/
theorem C6_vendor_subranges_witness :
    c6wEntry.entry_offset + c6wEntry.entry_size ≤ c6wRamdisk.data.length :=
  C6_vendor_subranges c6data ⟨c6hdr, VENDOR_BOOT_HEADER_V4, .vendor 4⟩
    ⟨none, some c6wRamdisk, none, none, none, none, none⟩ 2345 c6wRamdisk
    [c6wEntry, c6wEntry] (by decide) (by decide) (by decide) c6wEntry
    (List.mem_cons_self c6wEntry [c6wEntry])

/-! ## C8 — replacement rejections in `patch` -/

/-- C8: with a source image whose ramdisk carries a vendor ramdisk
table, `patch` rejects `replace_ramdisk`; without a table it rejects
any `replace_vendor_ramdisk`; and a `replace_vendor_ramdisk` index ≥
the table length is rejected with the invalid-index error.  (The
kernel stage runs first, so each conjunct assumes it succeeded.) -/
theorem C8_replacement_rejections :
    (∀ (enc : CompressFormat → List Nat → List Nat) (src : BootImage)
        (opt : BootImagePatchOption) (table : List VendorRamdiskEntry) (ks1 ks2 : Nat),
      src.header.hdr_space ≤ listLen src.data 0 →
      kernelStage enc src opt src.header.hdr_space = .ok (ks1, ks2) →
      src.blocks.ramdisk.bind RamdiskImage.vendor_ramdisk_table = some table →
      opt.replace_ramdisk.isSome = true →
      BootImagePatchOption.patch enc src opt = .err .replaceRamdiskOnVendorBoot) ∧
    (∀ (enc : CompressFormat → List Nat → List Nat) (src : BootImage)
        (opt : BootImagePatchOption) (ks1 ks2 : Nat),
      src.header.hdr_space ≤ listLen src.data 0 →
      kernelStage enc src opt src.header.hdr_space = .ok (ks1, ks2) →
      src.blocks.ramdisk.bind RamdiskImage.vendor_ramdisk_table = none →
      opt.replace_vendor_ramdisk ≠ [] →
      BootImagePatchOption.patch enc src opt = .err .replaceVendorRamdiskOnNonVendor) ∧
    (∀ (enc : CompressFormat → List Nat → List Nat) (src : BootImage)
        (opt : BootImagePatchOption) (table : List VendorRamdiskEntry) (ks1 ks2 : Nat),
      src.header.hdr_space ≤ listLen src.data 0 →
      kernelStage enc src opt src.header.hdr_space = .ok (ks1, ks2) →
      src.blocks.ramdisk.bind RamdiskImage.vendor_ramdisk_table = some table →
      opt.replace_ramdisk = none →
      (opt.replace_vendor_ramdisk.any fun p => table.length ≤ p.1) = true →
      BootImagePatchOption.patch enc src opt = .err .invalidVendorRamdiskIndex) := by
  refine ⟨?_, ?_, ?_⟩
  · intro enc src opt table ks1 ks2 hlen hk htab hrr
    unfold BootImagePatchOption.patch
    rw [if_neg (by omega)]
    simp only [hk]
    unfold ramdiskStage
    simp only [htab, hrr]
    simp
  · intro enc src opt ks1 ks2 hlen hk htab hne
    unfold BootImagePatchOption.patch
    rw [if_neg (by omega)]
    simp only [hk]
    unfold ramdiskStage
    simp only [htab]
    rw [if_pos hne]
  · intro enc src opt table ks1 ks2 hlen hk htab hrr hany
    unfold BootImagePatchOption.patch
    rw [if_neg (by omega)]
    simp only [hk]
    unfold ramdiskStage
    simp only [htab, hrr, hany, Option.isSome_none, Bool.false_eq_true, if_false, if_true]

/-- A vendor-v4 style header with page_size 1 used to build small
concrete patch inputs. -/
def w8Header : BootHeader := ⟨zeros 12 ++ le32 1 ++ zeros 2112, VENDOR_BOOT_HEADER_V4, .vendor 4⟩

/-- A small source image whose ramdisk has a one-entry vendor table. -/
def src8 : BootImage :=
  ⟨zeros 2128, w8Header,
   ⟨none, some ⟨2128, 1, [0], .UNKNOWN, some [c6wEntry]⟩, none, none, none, none, none⟩, none⟩

/-- A small source image with no ramdisk at all. -/
def src8b : BootImage :=
  ⟨zeros 2128, w8Header, ⟨none, none, none, none, none, none, none⟩, none⟩

/-- C8 witness: the three rejections at concrete inputs. -/
theorem C8_replacement_rejections_witness :
    BootImagePatchOption.patch encId src8 { replace_ramdisk := some ⟨[1], true⟩ } =
      .err .replaceRamdiskOnVendorBoot ∧
    BootImagePatchOption.patch encId src8b { replace_vendor_ramdisk := [(0, ⟨[1], true⟩)] } =
      .err .replaceVendorRamdiskOnNonVendor ∧
    BootImagePatchOption.patch encId src8 { replace_vendor_ramdisk := [(5, ⟨[1], true⟩)] } =
      .err .invalidVendorRamdiskIndex :=
  ⟨C8_replacement_rejections.1 encId src8 _ [c6wEntry] 0 2128 (by decide) (by decide)
      (by decide) (by decide),
   C8_replacement_rejections.2.1 encId src8b _ 0 2128 (by decide) (by decide) (by decide)
      (by decide),
   C8_replacement_rejections.2.2 encId src8 _ [c6wEntry] 0 2128 (by decide) (by decide)
      (by decide) (by decide) (by decide)⟩

/-! ## C7 — raw replacements and UNKNOWN source compression -/

/-- C7 (counterexample): the source image's kernel block has UNKNOWN
compression format and the replacement kernel is raw
(compressed = false); the claim says `patch` must fail with
UNKNOWN_COMPRESSION, but it succeeds, writing the raw stream verbatim
(kernel_size = the 2-byte replacement's length). -/
theorem C7_unknown_format_not_rejected :
    kernelFormatOf c7data = some .UNKNOWN ∧
    c7opt.replace_kernel = some ⟨[5, 6], false⟩ ∧
    (patchOf c7data c7opt).map PatchTrace.kernel_size = some 2 :=
  ⟨by decide, by rfl, by decide⟩

/-- C7 (amended): `patch` fails with the
could-not-determine-compression error exactly when a raw
(compressed = false) kernel or ramdisk replacement is supplied and the
source image has no corresponding block; a raw replacement whose
source block has UNKNOWN format is copied verbatim without error. -/
theorem C7_raw_replacement_requires_source_block :
    (∀ (enc : CompressFormat → List Nat → List Nat) (src : BootImage)
        (opt : BootImagePatchOption) (p : ReplacePayload),
      src.header.hdr_space ≤ listLen src.data 0 →
      opt.replace_kernel = some p →
      p.compressed = false →
      src.blocks.kernel = none →
      BootImagePatchOption.patch enc src opt = .err .unknownKernelCompression) ∧
    (∀ (enc : CompressFormat → List Nat → List Nat) (src : BootImage)
        (opt : BootImagePatchOption) (p : ReplacePayload),
      src.header.hdr_space ≤ listLen src.data 0 →
      opt.replace_kernel = none →
      src.blocks.ramdisk = none →
      opt.replace_vendor_ramdisk = [] →
      opt.replace_ramdisk = some p →
      p.compressed = false →
      BootImagePatchOption.patch enc src opt = .err .unknownRamdiskCompression) := by
  constructor
  · intro enc src opt p hlen hrep hcomp hker
    unfold BootImagePatchOption.patch
    rw [if_neg (by omega)]
    unfold kernelStage
    simp only [hrep, hcomp, hker, Bool.false_eq_true, if_false]
  · intro enc src opt p hlen hknone hrdnone hvr hrep hcomp
    unfold BootImagePatchOption.patch
    rw [if_neg (by omega)]
    unfold kernelStage
    simp only [hknone]
    cases hsk : src.blocks.kernel with
    | none =>
      simp only [hsk]
      unfold ramdiskStage
      simp only [hrdnone, Option.none_bind, hvr, hrep, hcomp, Bool.false_eq_true, if_false,
        ne_eq, not_true_eq_false, reduceIte]
    | some k =>
      simp only [hsk]
      unfold ramdiskStage
      simp only [hrdnone, Option.none_bind, hvr, hrep, hcomp, Bool.false_eq_true, if_false,
        ne_eq, not_true_eq_false, reduceIte]

/-- C7 witness: raw kernel and ramdisk replacements against an image
with no kernel and no ramdisk blocks. -/
theorem C7_raw_replacement_witness :
    BootImagePatchOption.patch encId src8b { replace_kernel := some ⟨[9], false⟩ } =
      .err .unknownKernelCompression ∧
    BootImagePatchOption.patch encId src8b { replace_ramdisk := some ⟨[9], false⟩ } =
      .err .unknownRamdiskCompression :=
  ⟨C7_raw_replacement_requires_source_block.1 encId src8b _ ⟨[9], false⟩ (by decide) rfl rfl rfl,
   C7_raw_replacement_requires_source_block.2 encId src8b _ ⟨[9], false⟩ (by decide) rfl rfl rfl
     rfl rfl⟩

/-! ## C3 — block alignment in patched images -/

/-- C3 (counterexample): patching the vendor-v4 image `c3data`
(page_size 8, one-entry vendor ramdisk table, 4-byte bootconfig) with
no replacements places the bootconfig block at offset 2244, which is
not a multiple of the page size. -/
theorem C3_bootconfig_unaligned :
    (patchOf c3data {}).map PatchTrace.bootconfig_off = some 2244 ∧
    (patchOf c3data {}).map PatchTrace.vendor_ramdisk_table_off = some 2136 ∧
    pageOf c3data = some 8 ∧
    ¬(2244 % 8 = 0) :=
  ⟨by decide, by decide, by decide, by decide⟩

/-- C3 (amended): in every image produced by `patch`, the kernel,
ramdisk, second, recovery_dtbo, dtb, signature and
vendor_ramdisk_table blocks start at offsets ≡ 0 (mod page_size); the
bootconfig block instead starts immediately after the vendor ramdisk
table (`vendor_ramdisk_table_off + vendor_ramdisk_table_size`), so it
is page-aligned only when the emitted table's byte length is a
multiple of page_size. -/
theorem C3_patch_alignment (enc : CompressFormat → List Nat → List Nat)
    (src : BootImage) (opt : BootImagePatchOption) (tr : PatchTrace)
    (_hpow : is_pow2 src.header.page_size = true)
    (hp : BootImagePatchOption.patch enc src opt = .ok tr) :
    (tr.kernel_off % src.header.page_size = 0 ∧
     tr.ramdisk_off % src.header.page_size = 0 ∧
     tr.second_off % src.header.page_size = 0 ∧
     tr.recovery_dtbo_off % src.header.page_size = 0 ∧
     tr.dtb_off % src.header.page_size = 0 ∧
     tr.signature_off % src.header.page_size = 0 ∧
     tr.vendor_ramdisk_table_off % src.header.page_size = 0) ∧
    tr.bootconfig_off = tr.vendor_ramdisk_table_off + tr.vendor_ramdisk_table_size := by
  unfold BootImagePatchOption.patch at hp
  simp only [] at hp
  split at hp
  · cases hp
  · split at hp
    · cases hp
    · cases hp
    · split at hp
      · cases hp
      · cases hp
      · cases hp
        refine ⟨⟨?_, ?_, ?_, ?_, ?_, ?_, ?_⟩, rfl⟩ <;> exact align_to_mod _ _

/-- The empty-blocks Android v0 source image with page_size 1. -/
def wsrc0 : BootImage :=
  ⟨zeros 1632, ⟨zeros 36 ++ le32 1 ++ zeros 1592, BOOT_HEADER_V0, .android 0⟩,
   ⟨none, none, none, none, none, none, none⟩, none⟩

/-- The patch trace of `wsrc0` with no replacements. -/
def tr3w : PatchTrace :=
  ⟨1632, 0, 1632, 0, 1632, 0, 1632, 0, 1632, 0, 1632, 0, 1632, 0, 1632, 0, none, none, 1632⟩

/-- C3 witness: the alignment properties at a concrete patch run. -/
theorem C3_patch_alignment_witness :
    (tr3w.kernel_off % wsrc0.header.page_size = 0 ∧
     tr3w.ramdisk_off % wsrc0.header.page_size = 0 ∧
     tr3w.second_off % wsrc0.header.page_size = 0 ∧
     tr3w.recovery_dtbo_off % wsrc0.header.page_size = 0 ∧
     tr3w.dtb_off % wsrc0.header.page_size = 0 ∧
     tr3w.signature_off % wsrc0.header.page_size = 0 ∧
     tr3w.vendor_ramdisk_table_off % wsrc0.header.page_size = 0) ∧
    tr3w.bootconfig_off = tr3w.vendor_ramdisk_table_off + tr3w.vendor_ramdisk_table_size :=
  C3_patch_alignment encId wsrc0 {} tr3w (by decide) (by decide)

/-! ## C5 — extraction of a v2 boot image -/

/-- A `stepBlock` call whose layout lacks the size field returns no block
and leaves the cursor unchanged. -/
theorem stepBlock_absent (data : List Nat) (page off size : Nat) :
    stepBlock data page off false size = .ok (none, off) := rfl

/-- A `stepBlock` call with size 0 returns no block and leaves the cursor
unchanged, whether or not the layout has the field. -/
theorem stepBlock_zero_size (data : List Nat) (page off : Nat) (present : Bool) :
    stepBlock data page off present 0 = .ok (none, off) := by
  cases present <;> rfl

/-- In-bounds slicing succeeds with the drop/take slice. -/
theorem sliceAt_of_le (data : List Nat) (off len : Nat) (h : off + len ≤ data.length) :
    sliceAt data off len = some ((data.drop off).take len) := by
  unfold sliceAt
  rw [listLen_eq0]
  exact if_pos h

/-- A present, nonzero, in-bounds `stepBlock` call carves the slice and
advances the cursor by the page-aligned size. -/
theorem stepBlock_present (data : List Nat) (page off size off2 : Nat) (h0 : 0 < size)
    (hb : off + size ≤ data.length) (hoff : off + align_to size page = off2) :
    stepBlock data page off true size =
      .ok (some ⟨off, size, (data.drop off).take size⟩, off2) := by
  unfold stepBlock
  rw [if_pos rfl, if_pos h0, sliceAt_of_le data off size hb, hoff]

/-- The `(off, size)` view of extracted blocks and the final cursor. -/
structure BlocksSummary where
  kernel : Option (Nat × Nat)
  ramdisk : Option (Nat × Nat)
  second : Option (Nat × Nat)
  recovery_dtbo : Option (Nat × Nat)
  dtb : Option (Nat × Nat)
  signature : Option (Nat × Nat)
  bootconfig : Option (Nat × Nat)
  cursor : Nat
deriving DecidableEq, Repr

def summarize : PResult ParseError (BootImageBlocks × Nat) → Option BlocksSummary
  | .ok (b, c) =>
    some ⟨b.kernel.map fun k => (k.off, k.size),
          b.ramdisk.map fun r => (r.off, r.size),
          b.second.map fun p => (p.off, p.size),
          b.recovery_dtbo.map fun p => (p.off, p.size),
          b.dtb.map fun p => (p.off, p.size),
          b.signature.map fun p => (p.off, p.size),
          b.bootconfig.map fun p => (p.off, p.size), c⟩
  | _ => none

/-- Extraction of an Android v2 image declaring kernel_size 0x400000,
ramdisk_size 0x100000, second/recovery_dtbo/dtb sizes 0 and page_size
2048: header space is `align_up(1660, 2048) = 0x800`, the kernel spans
0x800..0x400800, the ramdisk 0x400800..0x500800, and the final cursor
is 0x500800. -/
theorem v2_extraction (data : List Nat) (hdr : BootHeader)
    (hl : hdr.layout = BOOT_HEADER_V2) (hv : hdr.version = .android 2)
    (hk : hdr.get_kernel_size = 0x400000) (hr : hdr.get_ramdisk_size = 0x100000)
    (hs : hdr.get_second_size = 0) (hrd : hdr.get_recovery_dtbo_size = 0)
    (hd : hdr.get_dtb_size = 0) (hpg : hdr.get_page_size = 2048)
    (hlen : data.length = 0x500800) :
    summarize (BootImageBlocks.parse data hdr) =
      some ⟨some (0x800, 0x400000), some (0x400800, 0x100000), none, none, none, none, none,
        0x500800⟩ := by
  have hpage : hdr.page_size = 2048 := by
    unfold BootHeader.page_size
    rw [hv]
    simp [hpg]
  have hspace : hdr.hdr_space = 2048 := by
    unfold BootHeader.hdr_space
    rw [hl, hpage]
    decide
  have ek : (decide (BOOT_HEADER_V2.offset_kernel_size ≠ 0)) = true := by decide
  have er : (decide (BOOT_HEADER_V2.offset_ramdisk_size ≠ 0)) = true := by decide
  have es : (decide (BOOT_HEADER_V2.offset_second_size ≠ 0)) = true := by decide
  have erd : (decide (BOOT_HEADER_V2.offset_recovery_dtbo_size ≠ 0)) = true := by decide
  have ed : (decide (BOOT_HEADER_V2.offset_dtb_size ≠ 0)) = true := by decide
  have esig : (decide (BOOT_HEADER_V2.offset_signature_size ≠ 0)) = false := by decide
  have evt : (decide (BOOT_HEADER_V2.offset_vendor_ramdisk_table_size ≠ 0)) = false := by decide
  have ebc : (decide (BOOT_HEADER_V2.offset_bootconfig_size ≠ 0)) = false := by decide
  have st1 : stepBlock data 2048 2048 true 0x400000 =
      .ok (some ⟨2048, 0x400000, (data.drop 2048).take 0x400000⟩, 0x400800) :=
    stepBlock_present data 2048 2048 0x400000 0x400800 (by norm_num)
      (by rw [hlen]; norm_num) (by decide)
  have st2 : stepBlock data 2048 0x400800 true 0x100000 =
      .ok (some ⟨0x400800, 0x100000, (data.drop 0x400800).take 0x100000⟩, 0x500800) :=
    stepBlock_present data 2048 0x400800 0x100000 0x500800 (by norm_num)
      (by rw [hlen]) (by decide)
  unfold BootImageBlocks.parse
  rw [hl, hpage, hspace, hk, hr, hs, hrd, hd]
  simp only [ek, er, es, erd, ed, esig, evt, ebc, st1, st2, stepBlock_zero_size,
    stepBlock_absent, parseTable, summarize, Option.map_some', Option.map_none']


/-- The v2 header of the concrete scenario: kernel_size 0x400000 at
offset 8, ramdisk_size 0x100000 at 16, second_size 0 at 24, page_size
2048 at 36, header_version 2 at 40, all other fields zero. -/
def c5hdr : List Nat :=
  BOOT_MAGIC ++ le32 0x400000 ++ zeros 4 ++ le32 0x100000 ++ zeros 4 ++ le32 0 ++
    zeros 8 ++ le32 2048 ++ le32 2 ++ zeros 1616

/-- The concrete v2 image: header followed by zero padding and blocks
up to the final cursor 0x500800. -/
def c5data : List Nat := c5hdr ++ zeros 5243268

theorem c5hdr_length : c5hdr.length = 1660 := by
  simp only [c5hdr, zeros, le32, BOOT_MAGIC, List.length_append, List.length_replicate,
    List.length_cons, List.length_nil]

/-- The length of a zero block is its count. -/
theorem zeros_length (n : Nat) : (zeros n).length = n := List.length_replicate n 0

theorem c5data_length : c5data.length = 0x500800 := by
  unfold c5data
  rw [List.length_append, c5hdr_length, zeros_length]

/-- C5 (counterexample): at the concrete image the extractor places
the kernel at 0x800..0x400800 and the ramdisk at 0x400800..0x500800
with final cursor 0x500800 — not the 0x1000-based offsets the claim
states (align_up(1660, 2048) is 0x800, not 0x1000). -/
theorem C5_v2_offsets_claim_false :
    summarize (BootImageBlocks.parse c5data ⟨c5hdr, BOOT_HEADER_V2, .android 2⟩) =
      some ⟨some (0x800, 0x400000), some (0x400800, 0x100000), none, none, none, none, none,
        0x500800⟩ ∧
    ((0x800 : Nat) ≠ 0x1000 ∧ (0x400800 : Nat) ≠ 0x401000 ∧ (0x500800 : Nat) ≠ 0x501000) :=
  ⟨v2_extraction c5data ⟨c5hdr, BOOT_HEADER_V2, .android 2⟩ rfl rfl (by decide) (by decide)
      (by decide) (by decide) (by decide) (by decide) c5data_length,
   by decide⟩

/-- C5 (amended): parsing an Android v2 boot image whose header
declares kernel_size 0x00400000, ramdisk_size 0x00100000,
second_size 0 (and recovery_dtbo/dtb sizes 0) with page_size 2048
yields exactly the blocks kernel at 0x800..0x400800 and ramdisk at
0x400800..0x500800, with the extractor's final cursor 0x500800. -/
theorem C5_v2_extraction (data : List Nat) (hdr : BootHeader)
    (hl : hdr.layout = BOOT_HEADER_V2) (hv : hdr.version = .android 2)
    (hk : hdr.get_kernel_size = 0x400000) (hr : hdr.get_ramdisk_size = 0x100000)
    (hs : hdr.get_second_size = 0) (hrd : hdr.get_recovery_dtbo_size = 0)
    (hd : hdr.get_dtb_size = 0) (hpg : hdr.get_page_size = 2048)
    (hlen : data.length = 0x500800) :
    summarize (BootImageBlocks.parse data hdr) =
      some ⟨some (0x800, 0x400000), some (0x400800, 0x100000), none, none, none, none, none,
        0x500800⟩ :=
  v2_extraction data hdr hl hv hk hr hs hrd hd hpg hlen

/-- C5 witness: the amended extraction at the concrete image. -/
theorem C5_v2_extraction_witness :
    summarize (BootImageBlocks.parse c5data ⟨c5hdr, BOOT_HEADER_V2, .android 2⟩) =
      some ⟨some (0x800, 0x400000), some (0x400800, 0x100000), none, none, none, none, none,
        0x500800⟩ :=
  C5_v2_extraction c5data ⟨c5hdr, BOOT_HEADER_V2, .android 2⟩ rfl rfl (by decide) (by decide)
    (by decide) (by decide) (by decide) (by decide) c5data_length

/-- C9 witness: the frame property at a concrete 64-byte footer. -/
theorem C9_avb_footer_patch_witness :
    (AvbFooter.patch (List.range 64) 81985529216486895 4096).length = 64 ∧
    ((AvbFooter.patch (List.range 64) 81985529216486895 4096).drop 12).take 8 =
      be64 81985529216486895 ∧
    ((AvbFooter.patch (List.range 64) 81985529216486895 4096).drop 20).take 8 = be64 4096 ∧
    (AvbFooter.patch (List.range 64) 81985529216486895 4096).take 12 = (List.range 64).take 12 ∧
    (AvbFooter.patch (List.range 64) 81985529216486895 4096).drop 28 = (List.range 64).drop 28 :=
  C9_avb_footer_patch (List.range 64) 81985529216486895 4096 (by decide)

end Bootimg
